import Mathlib

/-!
Verification development for the Operator Hideout Prediction Engine
(`backend/app/services/operator_hideout_v2` and the terrain / OSINT-fusion
services it uses).

The Python source is shallowly embedded: floats become real numbers,
Python dicts used as records become structures whose fields are the
projections the code reads (`d.get(key, default)` becomes a field access),
dicts used as tables become association lists, mutable module-level caches
become explicitly threaded state, and `list.sort` (a stable sort) becomes
`List.mergeSort` (also stable).  Predicates over real numbers are classical,
so definitions touching trigonometry are noncomputable, exactly like the
float comparisons they model.
-/

set_option maxHeartbeats 1600000

open Real List

namespace CUAS

/-- Classical decidability at low priority, so that real-number comparisons
appearing inside `if`/`decide` elaborate (Python compares floats freely). -/
noncomputable instance (priority := 100) classicalPropDecidable (p : Prop) :
    Decidable p :=
  Classical.propDecidable p

/-- Shallow model of Python's `math.atan2 y x` (two-argument arctangent). -/
noncomputable def atan2 (y x : ℝ) : ℝ :=
  if 0 < x then arctan (y / x)
  else if x < 0 then
    (if 0 ≤ y then arctan (y / x) + π else arctan (y / x) - π)
  else
    (if 0 < y then π / 2 else if y < 0 then -(π / 2) else 0)

/-- `math.radians`: degrees to radians. -/
noncomputable def radians (d : ℝ) : ℝ := d * π / 180

/-- The `a` intermediate of the haversine formula, as computed (identically) by
`OperatorHideoutEngineV2._haversine_distance` (engine_v2.py),
`SiteBoundary._haversine_distance` (site_boundary.py) and
`_haversine_distance` (osm_loader.py). -/
noncomputable def havA (lat1 lon1 lat2 lon2 : ℝ) : ℝ :=
  sin (radians (lat2 - lat1) / 2) ^ 2 +
    cos (radians lat1) * cos (radians lat2) * sin (radians (lon2 - lon1) / 2) ^ 2

/-- `_haversine_distance` (km), shared by engine_v2.py, site_boundary.py and
osm_loader.py: `R = 6371.0; c = 2 * atan2(sqrt(a), sqrt(1 - a)); return R * c`. -/
noncomputable def haversineKm (lat1 lon1 lat2 lon2 : ℝ) : ℝ :=
  6371.0 * (2 * atan2 (Real.sqrt (havA lat1 lon1 lat2 lon2))
      (Real.sqrt (1 - havA lat1 lon1 lat2 lon2)))

/-! ## site_boundary.py -/

/-- `SiteBoundary`: a protected site, circular (`radius_m`) or polygonal
(`polygon_vertices`), plus a safety buffer. -/
structure SiteBoundary where
  site_name : String
  center_lat : ℝ
  center_lon : ℝ
  radius_m : Option ℝ
  polygon_vertices : Option (List (ℝ × ℝ))
  safety_buffer_m : ℝ

/-- `SiteBoundary.__init__`: raises `ValueError` iff both `radius_m` and
`polygon_vertices` are `None` (`is None` is a constructor test, hence the
`match`). -/
def mkSiteBoundary (site_name : String) (center_lat center_lon : ℝ)
    (radius_m : Option ℝ) (polygon_vertices : Option (List (ℝ × ℝ)))
    (safety_buffer_m : ℝ) : Except String SiteBoundary :=
  match radius_m, polygon_vertices with
  | none, none => .error "Must provide either radius_m or polygon_vertices"
  | r, p => .ok ⟨site_name, center_lat, center_lon, r, p, safety_buffer_m⟩

/-- One step of the ray-casting loop in `SiteBoundary._point_in_polygon`.
State: `(inside, x_intersect)`.  In Python `x_intersect` is a local that
survives between iterations once assigned (reading it before any assignment
would raise `UnboundLocalError`; we seed it with 0, a case no claim relies
on). -/
noncomputable def pipStep (lat lon : ℝ) (st : Prop × ℝ) (edge : (ℝ × ℝ) × (ℝ × ℝ)) :
    Prop × ℝ :=
  let p1 := edge.1
  let p2 := edge.2
  if lon > min p1.2 p2.2 ∧ lon ≤ max p1.2 p2.2 ∧ lat ≤ max p1.1 p2.1 then
    let xI := if p1.2 ≠ p2.2
      then (lon - p1.2) * (p2.1 - p1.1) / (p2.2 - p1.2) + p1.1
      else st.2
    (if p1.1 = p2.1 ∨ lat ≤ xI then ¬ st.1 else st.1, xI)
  else st

/-- The edges `(vertices[i-1], vertices[i % n])` for `i = 1..n` walked by
the loops in `_point_in_polygon` and `_distance_to_polygon`. -/
def polygonEdges (vertices : List (ℝ × ℝ)) : List ((ℝ × ℝ) × (ℝ × ℝ)) :=
  match vertices with
  | [] => []
  | v :: vs => (v :: vs).zip (vs ++ [v])

/-- `SiteBoundary._point_in_polygon` (ray casting). -/
noncomputable def pointInPolygon (lat lon : ℝ) (vertices : List (ℝ × ℝ)) : Prop :=
  ((polygonEdges vertices).foldl (pipStep lat lon) (False, 0)).1

/-- `SiteBoundary._distance_to_segment` (km). -/
noncomputable def distanceToSegment (lat lon : ℝ) (v1 v2 : ℝ × ℝ) : ℝ :=
  let dx := v2.2 - v1.2
  let dy := v2.1 - v1.1
  if dx = 0 ∧ dy = 0 then haversineKm lat lon v1.1 v1.2
  else
    let t := ((lon - v1.2) * dx + (lat - v1.1) * dy) / (dx * dx + dy * dy)
    if t < 0 then haversineKm lat lon v1.1 v1.2
    else if t > 1 then haversineKm lat lon v2.1 v2.2
    else haversineKm lat lon (v1.1 + t * dy) (v1.2 + t * dx)

/-- `SiteBoundary._distance_to_polygon` (meters): minimum of the edge
distances (Python folds `min` starting from `float('inf')`, modelled with
an `Option` accumulator; an empty vertex list, which Python would answer
with infinity, yields `none`, mapped to 0 — never reached by any claim). -/
noncomputable def distanceToPolygon (lat lon : ℝ) (vertices : List (ℝ × ℝ)) : ℝ :=
  (((polygonEdges vertices).foldl
      (fun acc e =>
        let d := distanceToSegment lat lon e.1 e.2
        match acc with
        | none => some d
        | some m => some (min m d)) none).getD 0) * 1000

/-- `SiteBoundary.is_inside_boundary`. -/
noncomputable def isInsideBoundary (b : SiteBoundary) (lat lon : ℝ) : Prop :=
  match b.radius_m with
  | some r =>
      haversineKm b.center_lat b.center_lon lat lon * 1000 ≤ r + b.safety_buffer_m
  | none =>
      match b.polygon_vertices with
      | some vs =>
          pointInPolygon lat lon vs ∨ distanceToPolygon lat lon vs ≤ b.safety_buffer_m
      | none => False

/-- The `"Volkel Air Base"` entry of `KNOWN_SITES`. -/
def volkelBoundary : SiteBoundary :=
  ⟨"Volkel Air Base", 51.6564, 5.7083, some 1500, none, 200⟩

/-- The `"Eindhoven Airport"` entry of `KNOWN_SITES`. -/
def eindhovenBoundary : SiteBoundary :=
  ⟨"Eindhoven Airport", 51.4500, 5.3747, some 1200, none, 200⟩

/-- The `"Schiphol Airport"` entry of `KNOWN_SITES`. -/
def schipholBoundary : SiteBoundary :=
  ⟨"Schiphol Airport", 52.3105, 4.7683, some 2500, none, 200⟩

/-- `KNOWN_SITES` in dict insertion order (`.values()` iterates in this
order). -/
def KNOWN_SITES : List SiteBoundary :=
  [volkelBoundary, eindhovenBoundary, schipholBoundary]

/-- `get_site_boundary` (lookup by name). -/
def getSiteBoundary (site_name : String) : Option SiteBoundary :=
  KNOWN_SITES.find? (fun s => s.site_name = site_name)

/-- `d < min_distance`, where `none` models `min_distance = float('inf')`. -/
def ltMinDistance (d : ℝ) : Option (SiteBoundary × ℝ) → Prop
  | none => True
  | some (_, m) => d < m

/-- `get_site_boundary_by_location`: nearest known site within `radius_km`,
`None` otherwise.  The running `min_distance = float('inf')` / `nearest_site`
pair is the `Option` accumulator. -/
noncomputable def getSiteBoundaryByLocation (lat lon : ℝ) (radius_km : ℝ) :
    Option SiteBoundary :=
  (KNOWN_SITES.foldl
    (fun best site =>
      let d := haversineKm site.center_lat site.center_lon lat lon
      if d ≤ radius_km ∧ ltMinDistance d best then some (site, d) else best)
    none).map Prod.fst

/-! ## Python rounding -/

/-- Python 3 `round` to an integer: banker's rounding (ties to even);
off ties it is rounding to the nearest integer. -/
noncomputable def pyRoundInt (x : ℝ) : ℤ :=
  if x - ⌊x⌋ = 1 / 2 then (if 2 ∣ ⌊x⌋ then ⌊x⌋ else ⌊x⌋ + 1) else round x

/-- Python `round(x, ndigits)`. -/
noncomputable def pyRound (x : ℝ) (ndigits : ℕ) : ℝ :=
  (pyRoundInt (x * 10 ^ ndigits) : ℝ) / 10 ^ ndigits

/-! ## osm_loader.py -/

/-- A road entry: the projections (`type`, `distance_m`) that
`exfil_analyzer` reads from the road dict (with its `.get` defaults). -/
structure Road where
  type : String
  distance_m : ℝ

/-- A building entry of `OSMData.buildings`. -/
structure BuildingInfo where
  type : String
  count : ℕ

/-- `LanduseFeature`. -/
structure LanduseFeature where
  landuse_type : String
  geometry : List (ℝ × ℝ)
  tags : List (String × String)
  center_lat : ℝ
  center_lon : ℝ

/-- `OSMData`. -/
structure OSMData where
  center_lat : ℝ
  center_lon : ℝ
  radius_km : ℝ
  landuse_features : List LanduseFeature
  roads : List Road
  buildings : List BuildingInfo

/-- `_create_square_poly`. -/
noncomputable def createSquarePoly (lat lon size_km : ℝ) : List (ℝ × ℝ) :=
  let offset := size_km / 111.0 / 2
  [(lat - offset, lon - offset), (lat + offset, lon - offset),
   (lat + offset, lon + offset), (lat - offset, lon + offset),
   (lat - offset, lon - offset)]

/-- The features `_generate_synthetic_osm_data` appends for one `angle`
(an element of `range(0, 360, 30)`): the 0.5 km residential feature, then
the 1.5 km and 2.5 km forest/farmland features. -/
noncomputable def syntheticFeaturesAt (lat lon : ℝ) (angle : ℕ) : List LanduseFeature :=
  let rad := radians angle
  let innerLat := lat + (0.5 / 111.0) * cos rad
  let innerLon := lon + (0.5 / (111.0 * cos (radians lat))) * sin rad
  let midType := if angle % 60 < 30 then "forest" else "farmland"
  let midAt := fun (dist_km : ℝ) =>
    let fLat := lat + (dist_km / 111.0) * cos rad
    let fLon := lon + (dist_km / (111.0 * cos (radians lat))) * sin rad
    LanduseFeature.mk midType (createSquarePoly fLat fLon 0.2) [("landuse", midType)] fLat fLon
  LanduseFeature.mk "residential" (createSquarePoly innerLat innerLon 0.1)
      [("landuse", "residential"), ("name", "Urban sector " ++ toString angle)]
      innerLat innerLon
    :: [midAt 1.5, midAt 2.5]

/-- `_generate_synthetic_osm_data`. -/
noncomputable def generateSyntheticOsmData (lat lon radius_km : ℝ) : OSMData :=
  { center_lat := lat
    center_lon := lon
    radius_km := radius_km
    landuse_features := ((List.range 12).map (· * 30)).flatMap (syntheticFeaturesAt lat lon)
    roads := [⟨"primary", 50⟩, ⟨"secondary", 150⟩, ⟨"tertiary", 300⟩]
    buildings := [⟨"residential", 20⟩, ⟨"commercial", 5⟩] }

/-- The module-level `_osm_cache` dict, threaded explicitly. -/
abbrev OsmCache : Type := List ((ℝ × ℝ × ℝ) × OSMData)

/-- Dict lookup on the OSM cache. -/
noncomputable def osmCacheLookup : OsmCache → (ℝ × ℝ × ℝ) → Option OSMData
  | [], _ => none
  | (k, v) :: rest, key => if k = key then some v else osmCacheLookup rest key

/-- `load_osm_landuse`: answer from the cache when the rounded key is
present, otherwise generate synthetic data and store it under the key. -/
noncomputable def loadOsmLanduse (cache : OsmCache) (lat lon radius_km : ℝ) :
    OSMData × OsmCache :=
  let key := (pyRound lat 4, pyRound lon 4, radius_km)
  match osmCacheLookup cache key with
  | some d => (d, cache)
  | none =>
      let d := generateSyntheticOsmData lat lon radius_km
      (d, (key, d) :: cache)

/-- `d < min_dist` for the nearest-feature scan of `get_landuse_at_point`
(`none` is `min_dist = float('inf')`). -/
def ltMinFeature (d : ℝ) : Option (ℝ × String) → Prop
  | none => True
  | some (m, _) => d < m

/-- `get_landuse_at_point`: type of the nearest feature centre if within
0.5 km, else `"unknown"`. -/
noncomputable def getLanduseAtPoint (lat lon : ℝ) (osm : OSMData) : String :=
  let closest := osm.landuse_features.foldl
    (fun acc f =>
      let dist := haversineKm lat lon f.center_lat f.center_lon
      if ltMinFeature dist acc then some (dist, f.landuse_type) else acc)
    none
  match closest with
  | some (m, t) => if m < 0.5 then t else "unknown"
  | none => "unknown"

/-! ## elevation_loader.py -/

/-- The elevation dict: rounded `(lat, lon)` keys to elevations (m). -/
abbrev ElevationMap : Type := List ((ℝ × ℝ) × ℝ)

/-- Dict membership / item access on the elevation map. -/
noncomputable def emapLookup : ElevationMap → (ℝ × ℝ) → Option ℝ
  | [], _ => none
  | (k, v) :: rest, key => if k = key then some v else emapLookup rest key

/-- Dict assignment `d[k] = v`: replace in place if present, else append. -/
noncomputable def emapInsert (m : ElevationMap) (k : ℝ × ℝ) (v : ℝ) : ElevationMap :=
  if (emapLookup m k).isSome
    then m.map (fun p => if p.1 = k then (k, v) else p)
    else m ++ [(k, v)]

/-- `_distance`: plain Euclidean distance in degrees. -/
noncomputable def euclDist (lat1 lon1 lat2 lon2 : ℝ) : ℝ :=
  Real.sqrt ((lat2 - lat1) ^ 2 + (lon2 - lon1) ^ 2)

/-- `_generate_synthetic_elevation`. -/
noncomputable def generateSyntheticElevation (center_lat center_lon point_lat point_lon : ℝ) : ℝ :=
  let dist := euclDist center_lat center_lon point_lat point_lon
  let angle := atan2 (point_lat - center_lat) (point_lon - center_lon)
  50.0 + (20.0 * sin (dist * 3 + angle * 2) + 15.0 * cos (angle * 3))

/-- `load_elevation`: a grid of synthetic samples keyed by 5-digit-rounded
coordinates.  (`int()` truncates; the engine always passes a nonnegative
radius.)  The module-level `_elevation_cache` dict is declared in the source
but never read or written, so there is no state to thread. -/
noncomputable def loadElevation (lat lon radius_km : ℝ) : ElevationMap :=
  let num_samples := (⌊radius_km * 2 * 4⌋).toNat
  (List.range num_samples).foldl
    (fun m i =>
      (List.range num_samples).foldl
        (fun m2 j =>
          let sample_lat := lat - radius_km / 111.0 + (i * 2 * radius_km / 111.0 / num_samples)
          let sample_lon := lon - radius_km / (111.0 * cos (radians lat)) +
            (j * 2 * radius_km / (111.0 * cos (radians lat)) / num_samples)
          emapInsert m2 (pyRound sample_lat 5, pyRound sample_lon 5)
            (generateSyntheticElevation lat lon sample_lat sample_lon))
        m)
    []

/-- `get_elevation_at_point`: exact rounded-key hit, else synthetic fallback
for an empty map, else the value at the nearest key (Python's `min` keeps the
first minimiser; the final dict access always hits, `getD 0` is dead). -/
noncomputable def getElevationAtPoint (lat lon : ℝ) (emap : ElevationMap) : ℝ :=
  let rounded_key := (pyRound lat 5, pyRound lon 5)
  match emapLookup emap rounded_key with
  | some v => v
  | none =>
      match emap with
      | [] => generateSyntheticElevation lat lon lat lon
      | (k0, _) :: rest =>
          let nearest := (rest.map Prod.fst).foldl
            (fun best k =>
              if euclDist lat lon k.1 k.2 < euclDist lat lon best.1 best.2 then k else best)
            k0
          (emapLookup emap nearest).getD 0

/-- `compute_elevation_difference`. -/
noncomputable def computeElevationDifference (lat1 lon1 lat2 lon2 : ℝ)
    (emap : ElevationMap) : ℝ :=
  getElevationAtPoint lat2 lon2 emap - getElevationAtPoint lat1 lon1 emap

/-! ## cover_analyzer.py -/

/-- `LANDUSE_COVER_SCORES`. -/
def LANDUSE_COVER_SCORES : List (String × ℝ) :=
  [("forest", 0.95), ("wood", 0.95), ("scrub", 0.75), ("residential", 0.70),
   ("industrial", 0.65), ("commercial", 0.65), ("farmland", 0.30), ("grass", 0.20),
   ("meadow", 0.20), ("park", 0.25), ("bare", 0.10), ("water", 0.05), ("unknown", 0.40)]

/-- `LANDUSE_CONCEALMENT_MULT`. -/
def LANDUSE_CONCEALMENT_MULT : List (String × ℝ) :=
  [("forest", 1.0), ("residential", 0.9), ("industrial", 0.7), ("farmland", 0.5),
   ("grass", 0.3), ("water", 0.1), ("unknown", 0.6)]

/-- `compute_cover_score`. -/
noncomputable def computeCoverScore (lat lon : ℝ) (osm : OSMData) (emap : ElevationMap) : ℝ :=
  let landuse := getLanduseAtPoint lat lon osm
  let base_cover := (LANDUSE_COVER_SCORES.lookup landuse).getD 0.40
  let elevation := getElevationAtPoint lat lon emap
  let center_elevation := getElevationAtPoint osm.center_lat osm.center_lon emap
  let elev_diff := elevation - center_elevation
  let elevation_bonus := if elev_diff < -10 then 0.10 else if elev_diff < 0 then 0.05 else 0.0
  let building_bonus := if osm.buildings ≠ [] then 0.05 else 0.0
  min 1.0 (base_cover + elevation_bonus + building_bonus)

/-- `compute_concealment_score`. -/
noncomputable def computeConcealmentScore (lat lon : ℝ) (osm : OSMData)
    (emap : ElevationMap) (time_of_day : String) : ℝ :=
  let landuse := getLanduseAtPoint lat lon osm
  let base_concealment := (LANDUSE_COVER_SCORES.lookup landuse).getD 0.40 *
    (LANDUSE_CONCEALMENT_MULT.lookup landuse).getD 0.6
  let night_bonus := if time_of_day = "night" then 0.20 else 0.0
  let elevation := getElevationAtPoint lat lon emap
  let center_elevation := getElevationAtPoint osm.center_lat osm.center_lon emap
  let elev_variance := |elevation - center_elevation|
  let terrain_bonus := if 5 < elev_variance ∧ elev_variance < 30 then 0.10 else 0.0
  min 1.0 (base_concealment + night_bonus + terrain_bonus)

/-- Result of `compute_combined_cover_concealment`. -/
structure CoverConcealment where
  cover : ℝ
  concealment : ℝ
  combined : ℝ
  landuse : String

/-- `compute_combined_cover_concealment`. -/
noncomputable def computeCombinedCoverConcealment (lat lon : ℝ) (osm : OSMData)
    (emap : ElevationMap) (time_of_day : String) : CoverConcealment :=
  let cover := computeCoverScore lat lon osm emap
  let concealment := computeConcealmentScore lat lon osm emap time_of_day
  ⟨cover, concealment, 0.6 * cover + 0.4 * concealment, getLanduseAtPoint lat lon osm⟩

/-! ## exfil_analyzer.py -/

/-- `ROAD_QUALITY_SCORES`. -/
def ROAD_QUALITY_SCORES : List (String × ℝ) :=
  [("motorway", 1.0), ("trunk", 0.95), ("primary", 0.90), ("secondary", 0.85),
   ("tertiary", 0.75), ("residential", 0.70), ("unclassified", 0.60), ("track", 0.40),
   ("path", 0.20), ("footway", 0.10)]

/-- One entry of the route list built by `compute_exfil_routes`. -/
structure ExfilRoute where
  type : String
  distance_m : ℝ
  quality : ℝ
  distance_factor : ℝ
  score : ℝ

/-- `compute_exfil_routes`: map each road to a scored route, then
`routes.sort(key=score, reverse=True)` — a stable descending sort. -/
noncomputable def computeExfilRoutes (lat lon : ℝ) (osm : OSMData) : List ExfilRoute :=
  ((osm.roads.map (fun road =>
    let quality := (ROAD_QUALITY_SCORES.lookup road.type).getD 0.50
    let distance_factor :=
      if road.distance_m < 50 then 1.0
      else if road.distance_m < 100 then 0.9
      else if road.distance_m < 200 then 0.8
      else if road.distance_m < 500 then 0.6
      else 0.4
    ExfilRoute.mk road.type road.distance_m quality distance_factor
      (quality * distance_factor)))).mergeSort
    (fun a b => decide (b.score ≤ a.score))

/-- `score_exfil_attractiveness`. -/
noncomputable def scoreExfilAttractiveness (lat lon : ℝ) (osm : OSMData) : ℝ :=
  let routes := computeExfilRoutes lat lon osm
  match routes with
  | [] => 0.2
  | best :: _ =>
      let multiple_routes_bonus :=
        if routes.length ≥ 3 then 0.15 else if routes.length ≥ 2 then 0.10 else 0.0
      let road_types := ((routes.take 3).map (fun r => r.type)).dedup
      min 1.0 (best.score + multiple_routes_bonus + (road_types.length : ℝ) * 0.05)

/-! ## los_analyzer.py -/

/-- Result dict of `compute_line_of_sight`. -/
structure LosResult where
  has_los : Bool
  blocked : Bool
  max_obstruction_m : ℝ
  quality : ℝ
  operator_elevation_m : ℝ
  target_elevation_m : ℝ

/-- One iteration of the sampling loop in `compute_line_of_sight`:
state `(max_obstruction, blocked)`, loop variable `i ∈ range(1, num_samples)`. -/
noncomputable def losStep (operator_lat operator_lon target_lat target_lon : ℝ)
    (emap : ElevationMap) (num_samples : ℕ) (st : ℝ × Bool) (i : ℕ) : ℝ × Bool :=
  let t := (i : ℝ) / num_samples
  let sample_lat := operator_lat + t * (target_lat - operator_lat)
  let sample_lon := operator_lon + t * (target_lon - operator_lon)
  let sample_elev := getElevationAtPoint sample_lat sample_lon emap
  let operator_elev := getElevationAtPoint operator_lat operator_lon emap
  let target_elev := getElevationAtPoint target_lat target_lon emap
  let expected_elev := operator_elev + t * (target_elev - operator_elev)
  let obstruction := sample_elev - expected_elev
  (if obstruction > st.1 then obstruction else st.1,
   if obstruction > 10 then true else st.2)

/-- The final `(max_obstruction, blocked)` state of the sampling loop
(`max_obstruction` seeded at `0.0`, `blocked` at `False`). -/
noncomputable def losScan (operator_lat operator_lon target_lat target_lon : ℝ)
    (emap : ElevationMap) (num_samples : ℕ) : ℝ × Bool :=
  (List.range' 1 (num_samples - 1)).foldl
    (losStep operator_lat operator_lon target_lat target_lon emap num_samples)
    (0.0, false)

/-- `compute_line_of_sight`: sample `num_samples - 1` interior points of the
straight path, track the maximum obstruction (seeded at `0.0`) and whether
any sample exceeds the interpolated line by more than 10 m. -/
noncomputable def computeLineOfSight (operator_lat operator_lon target_lat target_lon : ℝ)
    (emap : ElevationMap) (num_samples : ℕ) : LosResult :=
  let operator_elev := getElevationAtPoint operator_lat operator_lon emap
  let target_elev := getElevationAtPoint target_lat target_lon emap
  let st := losScan operator_lat operator_lon target_lat target_lon emap num_samples
  let quality :=
    if st.2 then max 0.0 (0.5 - (st.1 - 10) / 50)
    else if st.1 < -10 then 1.0
    else if st.1 < 0 then 0.9
    else 0.8
  ⟨!st.2, st.2, st.1, quality, operator_elev, target_elev⟩

/-- `has_los_to_target` (default `num_samples = 10`). -/
noncomputable def hasLosToTarget (operator_lat operator_lon target_lat target_lon : ℝ)
    (emap : ElevationMap) : Bool :=
  (computeLineOfSight operator_lat operator_lon target_lat target_lon emap 10).has_los

/-- `compute_los_quality_score` (default `num_samples = 10`). -/
noncomputable def computeLosQualityScore (operator_lat operator_lon target_lat target_lon : ℝ)
    (emap : ElevationMap) : ℝ :=
  let los_result := computeLineOfSight operator_lat operator_lon target_lat target_lon emap 10
  let base_quality := los_result.quality
  let elev_diff := los_result.operator_elevation_m - los_result.target_elevation_m
  let elevation_bonus := if elev_diff > 20 then 0.10 else if elev_diff > 10 then 0.05 else 0.0
  min 1.0 (base_quality + elevation_bonus)

/-! ## vector_alignment.py -/

/-- Placeholder for Python numeric string formatting (`f"{x:.0f}"`,
`f"{int(x)}"` …) inside reasoning texts.  String images of real numbers are
outside the embedding; no claim inspects them. -/
def formatFloat (x : ℝ) : String := ""

/-- `DIRECTION_TO_DEGREES`, in dict insertion order. -/
def DIRECTION_TO_DEGREES : List (String × ℝ) :=
  [("N", 0), ("NNE", 22.5), ("NE", 45), ("ENE", 67.5), ("E", 90), ("ESE", 112.5),
   ("SE", 135), ("SSE", 157.5), ("S", 180), ("SSW", 202.5), ("SW", 225),
   ("WSW", 247.5), ("W", 270), ("WNW", 292.5), ("NW", 315), ("NNW", 337.5)]

/-- The `full_names` table of `parse_direction`. -/
def FULL_NAMES : List (String × ℝ) :=
  [("NORTH", 0), ("NORTHEAST", 45), ("EAST", 90), ("SOUTHEAST", 135),
   ("SOUTH", 180), ("SOUTHWEST", 225), ("WEST", 270), ("NORTHWEST", 315)]

/-- Python's substring test `sub in s`. -/
def pyStrIn (sub s : String) : Prop := sub.data <:+: s.data

/-- First table entry whose key satisfies `p`, as Python's
`for key, value in table.items(): if p(key): return value`. -/
noncomputable def findDirection : List (String × ℝ) → (String → Prop) → Option ℝ
  | [], _ => none
  | (k, v) :: rest, p => if p k then some v else findDirection rest p

/-- `parse_direction` (`if not direction_str` catches both `None` and `""`). -/
noncomputable def parseDirection (direction_str : Option String) : Option ℝ :=
  match direction_str with
  | none => none
  | some s =>
      if s = "" then none
      else
        let d := s.toUpper.trim
        match DIRECTION_TO_DEGREES.lookup d with
        | some v => some v
        | none =>
            match findDirection DIRECTION_TO_DEGREES (fun k => pyStrIn k d ∨ pyStrIn d k) with
            | some v => some v
            | none => findDirection FULL_NAMES (fun k => pyStrIn k d)

/-- `math.degrees`. -/
noncomputable def degrees (r : ℝ) : ℝ := r * 180 / π

/-- Python's float `%` for a positive right operand. -/
noncomputable def pymod (x m : ℝ) : ℝ := x - m * ⌊x / m⌋

/-- `compute_bearing`: initial great-circle bearing, normalised by
`(bearing_deg + 360) % 360`. -/
noncomputable def computeBearing (lat1 lon1 lat2 lon2 : ℝ) : ℝ :=
  let y := sin (radians (lon2 - lon1)) * cos (radians lat2)
  let x := cos (radians lat1) * sin (radians lat2) -
    sin (radians lat1) * cos (radians lat2) * cos (radians (lon2 - lon1))
  pymod (degrees (atan2 y x) + 360) 360

/-- `angular_difference`. -/
noncomputable def angularDifference (angle1 angle2 : ℝ) : ℝ :=
  let diff := |angle1 - angle2|
  if diff > 180 then 360 - diff else diff

/-- Result dict of `score_vector_alignment`. -/
structure VectorAlignment where
  alignment_score : ℝ
  bearing_diff_deg : Option ℝ
  expected_bearing_deg : Option ℝ
  actual_bearing_deg : Option ℝ
  reasoning : String

/-- `score_vector_alignment`. -/
noncomputable def scoreVectorAlignment (hotspot_lat hotspot_lon target_lat target_lon : ℝ)
    (approach_vector : Option String) (confidence_weight : ℝ) : VectorAlignment :=
  if approach_vector = none ∨ approach_vector = some "" then
    ⟨0.5, none, none, none, "No approach vector data available"⟩
  else
    match parseDirection approach_vector with
    | none =>
        ⟨0.5, none, none, none,
          "Could not parse approach vector: " ++ (approach_vector.getD "")⟩
    | some expected_bearing =>
        let actual_bearing := computeBearing hotspot_lat hotspot_lon target_lat target_lon
        let bearing_diff := angularDifference expected_bearing actual_bearing
        let alignment_score :=
          if bearing_diff ≤ 30 then 1.0
          else if bearing_diff ≤ 60 then 1.0 - (bearing_diff - 30) / 30 * 0.3
          else if bearing_diff ≤ 90 then 0.7 - (bearing_diff - 60) / 30 * 0.4
          else 0.3 - (bearing_diff - 90) / 90 * 0.3
        let weighted_score := 0.5 + (alignment_score - 0.5) * confidence_weight
        ⟨weighted_score, some bearing_diff, some expected_bearing, some actual_bearing,
          "Approach from " ++ (approach_vector.getD "") ++ " (expected " ++
            formatFloat expected_bearing ++ "°), hotspot bearing " ++
            formatFloat actual_bearing ++ "°, diff " ++ formatFloat bearing_diff ++ "°"⟩

/-! ## evidence_weighting.py -/

/-- One evidence dict, reduced to the projections `compute_evidence_weight`
reads (`e.get("credibility_score", 0.5)`, `e.get("source_type", "unknown")`). -/
structure EvidenceItem where
  source_type : String
  credibility_score : ℝ

/-- Result dict of `compute_evidence_weight`. -/
structure EvidenceWeightResult where
  total_weight : ℝ
  avg_credibility : ℝ
  source_diversity : ℝ
  num_sources : ℕ

/-- `compute_evidence_weight`. -/
noncomputable def computeEvidenceWeight (evidence_items : List EvidenceItem) :
    EvidenceWeightResult :=
  match evidence_items with
  | [] => ⟨0.0, 0.0, 0.0, 0⟩
  | _ :: _ =>
      let avg_credibility :=
        ((evidence_items.map (fun e => e.credibility_score)).sum) / evidence_items.length
      let diversity :=
        (((evidence_items.map (fun e => e.source_type)).dedup.length : ℝ)) /
          ((max evidence_items.length 5 : ℕ) : ℝ)
      let num_sources := evidence_items.length
      let count_factor :=
        if num_sources = 1 then 0.7
        else if num_sources ≤ 3 then 0.85
        else if num_sources ≤ 5 then 0.95
        else 1.0
      let total_weight := avg_credibility * count_factor * (1 + diversity * 0.2)
      ⟨min 1.0 total_weight, avg_credibility, diversity, num_sources⟩

/-! ## confidence_model.py -/

/-- The `composite["components"]` dict handed to the confidence model
(insertion order `cover … opsec`). -/
structure ComponentScores where
  cover : ℝ
  concealment : ℝ
  exfil : ℝ
  range : ℝ
  los : ℝ
  vector_alignment : ℝ
  locality_consistency : ℝ
  opsec : ℝ

/-- `component_scores.items()` in dict insertion order. -/
def componentItems (cs : ComponentScores) : List (String × ℝ) :=
  [("cover", cs.cover), ("concealment", cs.concealment), ("exfil", cs.exfil),
   ("range", cs.range), ("los", cs.los), ("vector_alignment", cs.vector_alignment),
   ("locality_consistency", cs.locality_consistency), ("opsec", cs.opsec)]

/-- Result of `compute_confidence_level`. -/
structure ConfidenceResult where
  level : String
  score : ℝ
  reasoning : String

/-- `generate_confidence_reasoning`. -/
noncomputable def generateConfidenceReasoning (level : String) (cs : ComponentScores)
    (evidence_weight vector_alignment_score confidence_score : ℝ) : String :=
  let reasons :=
    if level = "HIGH" then
      ["High confidence (" ++ formatFloat confidence_score ++ ")"] ++
        (if cs.cover > 0.75 then ["excellent cover"] else []) ++
        (if cs.exfil > 0.75 then ["good escape routes"] else []) ++
        (if vector_alignment_score > 0.75 then ["strong vector alignment"] else []) ++
        (if evidence_weight > 0.7 then ["high-quality evidence"] else [])
    else if level = "MEDIUM" then
      let strong := ((componentItems cs).filter (fun p => decide (p.2 > 0.70))).map Prod.fst
      let weak := ((componentItems cs).filter (fun p => decide (p.2 < 0.40))).map Prod.fst
      ["Medium confidence (" ++ formatFloat confidence_score ++ ")"] ++
        (if strong ≠ [] then ["strong " ++ String.intercalate ", " (strong.take 2)] else []) ++
        (if weak ≠ [] then ["weak " ++ String.intercalate ", " (weak.take 2)] else [])
    else
      ["Low confidence (" ++ formatFloat confidence_score ++ ")"] ++
        (if cs.cover < 0.40 then ["poor cover"] else []) ++
        (if cs.exfil < 0.40 then ["limited escape routes"] else []) ++
        (if vector_alignment_score < 0.40 then ["weak vector alignment"] else []) ++
        (if evidence_weight < 0.40 then ["limited evidence"] else [])
  String.intercalate "; " reasons

/-- `compute_confidence_level` (the `.get(key, 0.5)` reads become field
accesses; the engine always passes the full components dict). -/
noncomputable def computeConfidenceLevel (component_scores : ComponentScores)
    (evidence_weight vector_alignment_score : ℝ) : ConfidenceResult :=
  let confidence_score :=
    component_scores.cover * 0.25 + component_scores.exfil * 0.20 +
      component_scores.range * 0.15 + component_scores.los * 0.15 +
      evidence_weight * 0.15 + vector_alignment_score * 0.10
  let level :=
    if confidence_score ≥ 0.75 then "HIGH"
    else if confidence_score ≥ 0.55 then "MEDIUM"
    else "LOW"
  ⟨level, confidence_score,
    generateConfidenceReasoning level component_scores evidence_weight
      vector_alignment_score confidence_score⟩

/-! ## behaviour_model_v2.py -/

/-- One entry of `DRONE_RANGE_PROFILES`. -/
structure RangeProfile where
  min_range : ℝ
  optimal_range : ℝ
  max_range : ℝ
  control_method : String

/-- The `DroneType.UNKNOWN` profile. -/
def unknownProfile : RangeProfile := ⟨100, 1000, 4000, "unknown"⟩

/-- `get_drone_range_profile`: `if not drone_type` catches `None`/`""`;
`DroneType(s)` succeeds only on the eight enum values, a `ValueError`
falls back to `UNKNOWN`. -/
def getDroneRangeProfile (drone_type : Option String) : RangeProfile :=
  match drone_type with
  | none => unknownProfile
  | some s =>
      if s = "" then unknownProfile
      else if s = "consumer_dji" then ⟨100, 800, 4000, "radio"⟩
      else if s = "consumer_other" then ⟨100, 600, 3000, "radio"⟩
      else if s = "racing_fpv" then ⟨50, 400, 2000, "fpv"⟩
      else if s = "military_small" then ⟨200, 2000, 10000, "encrypted_radio"⟩
      else if s = "military_medium" then ⟨500, 5000, 25000, "satellite"⟩
      else if s = "diy_custom" then ⟨100, 1000, 5000, "custom"⟩
      else if s = "commercial" then ⟨100, 1500, 8000, "radio"⟩
      else unknownProfile

/-- `compute_range_score`. -/
noncomputable def computeRangeScore (distance_m : ℝ) (drone_type : Option String) : ℝ :=
  let profile := getDroneRangeProfile drone_type
  if distance_m < profile.min_range then 0.3 * (distance_m / profile.min_range)
  else if distance_m ≤ profile.optimal_range then
    0.3 + 0.7 * ((distance_m - profile.min_range) / (profile.optimal_range - profile.min_range))
  else if distance_m ≤ profile.max_range then
    1.0 - 0.7 * ((distance_m - profile.optimal_range) / (profile.max_range - profile.optimal_range))
  else max 0.0 (0.3 - (distance_m - profile.max_range) / profile.max_range * 0.3)

/-- `apply_night_operation_rules`. -/
noncomputable def applyNightOperationRules (base_score : ℝ) (time_of_day : String)
    (cover_score concealment_score : ℝ) : ℝ :=
  if time_of_day ≠ "night" then base_score
  else
    let night_concealment_boost := concealment_score * 0.15
    let cover_penalty_reduction := if cover_score < 0.5 then 0.10 else 0.0
    min 1.0 (base_score + night_concealment_boost + cover_penalty_reduction)

/-- `compute_opsec_penalty`: 0 inside the perimeter, 1 outside (the local
`penalty_factor` of the source is computed and discarded). -/
noncomputable def computeOpsecPenalty (distance_m perimeter_radius_m : ℝ) : ℝ :=
  if distance_m < perimeter_radius_m then 0.0 else 1.0

/-- The weight dict of `compute_composite_score_v2`. -/
structure ScoreWeights where
  cover : ℝ
  concealment : ℝ
  exfil : ℝ
  range : ℝ
  los : ℝ
  vector_alignment : ℝ
  locality_consistency : ℝ

/-- The default weights used when the caller passes `weights=None`. -/
def defaultWeights : ScoreWeights := ⟨0.20, 0.15, 0.15, 0.15, 0.10, 0.15, 0.10⟩

/-- Result dict of `compute_composite_score_v2`. -/
structure CompositeResult where
  total_score : ℝ
  components : ComponentScores
  weighted_components : ScoreWeights

/-- `compute_composite_score_v2`. -/
noncomputable def computeCompositeScoreV2 (cover_score concealment_score exfil_score
    range_score los_score vector_alignment_score locality_consistency_score
    opsec_penalty : ℝ) (weights : Option ScoreWeights) : CompositeResult :=
  let w := weights.getD defaultWeights
  let weighted : ScoreWeights :=
    ⟨cover_score * w.cover, concealment_score * w.concealment, exfil_score * w.exfil,
     range_score * w.range, los_score * w.los, vector_alignment_score * w.vector_alignment,
     locality_consistency_score * w.locality_consistency⟩
  let total_before_opsec := weighted.cover + weighted.concealment + weighted.exfil +
    weighted.range + weighted.los + weighted.vector_alignment + weighted.locality_consistency
  ⟨total_before_opsec * opsec_penalty,
   ⟨cover_score, concealment_score, exfil_score, range_score, los_score,
    vector_alignment_score, locality_consistency_score, opsec_penalty⟩,
   weighted⟩

/-! ## engine_v2.py

The engine is factored into named stages (grid, filter, score, sort, rank);
each stage is a pure function, so the factoring only names the intermediate
lists the Python loop builds. -/

/-- One candidate dict of `_generate_candidate_grid`. -/
structure Candidate where
  lat : ℝ
  lon : ℝ
  distance_km : ℝ
  bearing_deg : ℝ

/-- `distances_km = [0.2, 0.5, 1.0, 1.5, 2.0, 2.5, 3.0, 3.5, 4.0]`. -/
def DISTANCES_KM : List ℝ := [0.2, 0.5, 1.0, 1.5, 2.0, 2.5, 3.0, 3.5, 4.0]

/-- `angles = [0, 45, 90, 135, 180, 225, 270, 315]`. -/
def ANGLES_DEG : List ℝ := [0, 45, 90, 135, 180, 225, 270, 315]

/-- The candidate `_generate_candidate_grid` appends for one
(distance, angle) pair. -/
noncomputable def candidateAt (center_lat center_lon dist_km angle_deg : ℝ) : Candidate :=
  let angle_rad := radians angle_deg
  ⟨center_lat + (dist_km / 111.0) * cos angle_rad,
   center_lon + (dist_km / (111.0 * cos (radians center_lat))) * sin angle_rad,
   dist_km, angle_deg⟩

/-- The eight candidates of one distance ring (inner loop). -/
noncomputable def candidateRing (center_lat center_lon dist_km : ℝ) : List Candidate :=
  ANGLES_DEG.map (candidateAt center_lat center_lon dist_km)

/-- `_generate_candidate_grid`: distance-major, bearing-minor order. -/
noncomputable def generateCandidateGrid (center_lat center_lon : ℝ) : List Candidate :=
  DISTANCES_KM.flatMap (candidateRing center_lat center_lon)

/-- `OperatorHotspotV2` (pydantic model; the `CoverType` /
`TerrainSuitability` enums are represented by their string values, and the
field-range validators are not modelled — the score-bounds theorem proves
the constructed values satisfy them). -/
structure OperatorHotspotV2 where
  latitude : ℝ
  longitude : ℝ
  cover_score : ℝ
  distance_score : ℝ
  exfil_score : ℝ
  opsec_score : ℝ
  terrain_score : ℝ
  total_score : ℝ
  cover_type : String
  terrain_suitability : String
  distance_to_target_m : ℝ
  nearest_road_type : Option String
  nearest_road_distance_m : Option ℝ
  reasoning : String
  concealment_score : ℝ
  range_score : ℝ
  los_score : ℝ
  vector_alignment_score : ℝ
  locality_consistency_score : ℝ
  confidence_level : String
  confidence_score : ℝ
  confidence_reasoning : String

/-- `OperatorAnalysisV2` (the wall-clock `analyzed_at` timestamp is outside
the embedding and not part of any claim). -/
structure OperatorAnalysisV2 where
  incident_id : ℤ
  target_latitude : ℝ
  target_longitude : ℝ
  predicted_hotspots : List OperatorHotspotV2
  search_radius_m : ℝ
  perimeter_radius_m : ℝ
  drone_type : Option String
  approach_vector : Option String
  exit_vector : Option String
  time_of_day : String
  evidence_weight : ℝ

/-- `OperatorHideoutEngineV2.__init__` state. -/
structure EngineV2 where
  search_radius_m : ℝ
  perimeter_radius_m : ℝ
  num_candidates : ℕ

/-- The default engine construction
(`search_radius_m=4000, perimeter_radius_m=500, num_candidates=72`). -/
def defaultEngineV2 : EngineV2 := ⟨4000.0, 500.0, 72⟩

/-- `_landuse_to_cover_type`. -/
def landuseToCoverType (landuse : String) : String :=
  if landuse = "forest" then "forest"
  else if landuse = "wood" then "forest"
  else if landuse = "residential" then "urban_building"
  else if landuse = "industrial" then "urban_building"
  else if landuse = "farmland" then "open_field"
  else if landuse = "grass" then "open_field"
  else if landuse = "parking" then "parking_lot"
  else "unknown"

/-- `_score_to_terrain_suitability`. -/
noncomputable def scoreToTerrainSuitability (score : ℝ) : String :=
  if score ≥ 0.80 then "excellent"
  else if score ≥ 0.65 then "good"
  else if score ≥ 0.45 then "moderate"
  else if score ≥ 0.25 then "poor"
  else "unsuitable"

/-- `_generate_reasoning_v2`. -/
noncomputable def generateReasoningV2 (distance_m cover_score exfil_score range_score
    los_score vector_score : ℝ) (cover_type terrain_suit : String) : String :=
  let reasons :=
    [if distance_m < 500 then "Very close (" ++ formatFloat distance_m ++ "m) - high risk"
     else if distance_m < 1500 then "Close range (" ++ formatFloat distance_m ++ "m)"
     else if distance_m < 2500 then "Optimal distance (" ++ formatFloat distance_m ++ "m)"
     else "Long range (" ++ formatFloat distance_m ++ "m)"] ++
    [if cover_score > 0.75 then "excellent " ++ cover_type ++ " cover"
     else if cover_score > 0.55 then "good " ++ cover_type ++ " cover"
     else "limited " ++ cover_type ++ " cover"] ++
    (if exfil_score > 0.75 then ["good escape routes"]
     else if exfil_score < 0.40 then ["limited escape routes"] else []) ++
    (if los_score > 0.75 then ["clear line-of-sight"]
     else if los_score < 0.40 then ["obstructed LOS"] else []) ++
    (if vector_score > 0.75 then ["strong vector alignment"] else []) ++
    [terrain_suit ++ " terrain"]
  String.intercalate "; " reasons ++ "."

/-- `_score_candidate_v2`. -/
noncomputable def scoreCandidateV2 (e : EngineV2) (candidate_lat candidate_lon
    target_lat target_lon : ℝ) (osm : OSMData) (emap : ElevationMap)
    (drone_type approach_vector exit_vector : Option String) (time_of_day : String)
    (evidence_weight : ℝ) : OperatorHotspotV2 :=
  let distance_m := haversineKm candidate_lat candidate_lon target_lat target_lon * 1000
  let cover_data := computeCombinedCoverConcealment candidate_lat candidate_lon osm emap time_of_day
  let cover_score := cover_data.cover
  let concealment_score := cover_data.concealment
  let landuse := cover_data.landuse
  let exfil_score := scoreExfilAttractiveness candidate_lat candidate_lon osm
  let range_score := computeRangeScore distance_m drone_type
  let los_score := computeLosQualityScore candidate_lat candidate_lon target_lat target_lon emap
  let vector_align_result := scoreVectorAlignment candidate_lat candidate_lon
    target_lat target_lon approach_vector 0.8
  let vector_alignment_score := vector_align_result.alignment_score
  let locality_consistency_score := evidence_weight
  let opsec_penalty := computeOpsecPenalty distance_m e.perimeter_radius_m
  let composite := computeCompositeScoreV2 cover_score concealment_score exfil_score
    range_score los_score vector_alignment_score locality_consistency_score opsec_penalty none
  let total_score := applyNightOperationRules composite.total_score time_of_day
    cover_score concealment_score
  let confidence_data := computeConfidenceLevel composite.components evidence_weight
    vector_alignment_score
  let cover_type := landuseToCoverType landuse
  let terrain_suitability := scoreToTerrainSuitability total_score
  let reasoning := generateReasoningV2 distance_m cover_score exfil_score range_score
    los_score vector_alignment_score cover_type terrain_suitability
  { latitude := candidate_lat
    longitude := candidate_lon
    cover_score := cover_score
    distance_score := range_score
    exfil_score := exfil_score
    opsec_score := opsec_penalty
    terrain_score := los_score
    total_score := total_score
    cover_type := cover_type
    terrain_suitability := terrain_suitability
    distance_to_target_m := distance_m
    nearest_road_type := some "secondary_road"
    nearest_road_distance_m := some 50.0
    reasoning := reasoning
    concealment_score := concealment_score
    range_score := range_score
    los_score := los_score
    vector_alignment_score := vector_alignment_score
    locality_consistency_score := locality_consistency_score
    confidence_level := confidence_data.level
    confidence_score := confidence_data.score
    confidence_reasoning := confidence_data.reasoning }

/-- The aggregate evidence weight of `predict_operator_locations`:
`compute_evidence_weight` runs only when `evidence_items` is truthy,
otherwise `evidence_weight_data.get("total_weight", 0.5)` reads the default
from the empty dict. -/
noncomputable def engineEvidenceWeight (evidence_items : Option (List EvidenceItem)) : ℝ :=
  match evidence_items with
  | some (e :: rest) => (computeEvidenceWeight (e :: rest)).total_weight
  | _ => 0.5

/-- The per-candidate hard-constraint filter of `predict_operator_locations`:
a candidate is kept unless a boundary was resolved and contains it. -/
noncomputable def keepCandidate (site_boundary : Option SiteBoundary) (c : Candidate) : Prop :=
  match site_boundary with
  | some b => ¬ isInsideBoundary b c.lat c.lon
  | none => True

/-- The candidates that survive the hard-constraint filter. -/
noncomputable def survivingCandidates (site_boundary : Option SiteBoundary)
    (target_lat target_lon : ℝ) : List Candidate :=
  (generateCandidateGrid target_lat target_lon).filter
    (fun c => decide (keepCandidate site_boundary c))

/-- The candidates discarded by the filter (`filtered_count` is its length). -/
noncomputable def filteredCandidates (site_boundary : Option SiteBoundary)
    (target_lat target_lon : ℝ) : List Candidate :=
  (generateCandidateGrid target_lat target_lon).filter
    (fun c => decide (¬ keepCandidate site_boundary c))

/-- `scored_hotspots` in generation order. -/
noncomputable def engineScoredHotspots (e : EngineV2) (target_lat target_lon : ℝ)
    (drone_type approach_vector exit_vector : Option String) (time_of_day : String)
    (evidence_weight : ℝ) (osm : OSMData) (emap : ElevationMap) : List OperatorHotspotV2 :=
  (survivingCandidates (getSiteBoundaryByLocation target_lat target_lon 5.0)
      target_lat target_lon).map
    (fun c => scoreCandidateV2 e c.lat c.lon target_lat target_lon osm emap
      drone_type approach_vector exit_vector time_of_day evidence_weight)

/-- The sort key comparison of
`scored_hotspots.sort(key=lambda h: h.total_score, reverse=True)`. -/
noncomputable def hotspotLE (a b : OperatorHotspotV2) : Bool :=
  decide (b.total_score ≤ a.total_score)

/-- Python's stable descending sort on `total_score` (`mergeSort` is stable,
so candidates with equal scores keep generation order). -/
noncomputable def sortHotspotsDesc (l : List OperatorHotspotV2) : List OperatorHotspotV2 :=
  l.mergeSort hotspotLE

/-- The rank-assignment loop: `for rank, hotspot in enumerate(top_hotspots, 1):
hotspot.reasoning = f"Rank #{rank}: " + hotspot.reasoning`. -/
def assignRanks : ℕ → List OperatorHotspotV2 → List OperatorHotspotV2
  | _, [] => []
  | rank, h :: t =>
      { h with reasoning := "Rank #" ++ toString rank ++ ": " ++ h.reasoning }
        :: assignRanks (rank + 1) t

/-- The `OperatorAnalysisV2` built by `predict_operator_locations` from the
loaded OSM data (all remaining inputs are pure functions of the arguments). -/
noncomputable def buildAnalysis (e : EngineV2) (incident_id : ℤ)
    (target_lat target_lon : ℝ) (drone_type approach_vector exit_vector : Option String)
    (time_of_day : String) (evidence_items : Option (List EvidenceItem))
    (osm : OSMData) : OperatorAnalysisV2 :=
  let emap := loadElevation target_lat target_lon (e.search_radius_m / 1000)
  let evidence_weight := engineEvidenceWeight evidence_items
  let scored := engineScoredHotspots e target_lat target_lon drone_type approach_vector
    exit_vector time_of_day evidence_weight osm emap
  let top_hotspots := (sortHotspotsDesc scored).take 3
  { incident_id := incident_id
    target_latitude := target_lat
    target_longitude := target_lon
    predicted_hotspots := assignRanks 1 top_hotspots
    search_radius_m := e.search_radius_m
    perimeter_radius_m := e.perimeter_radius_m
    drone_type := drone_type
    approach_vector := approach_vector
    exit_vector := exit_vector
    time_of_day := time_of_day
    evidence_weight := evidence_weight }

/-- `predict_operator_locations`, with the module-level OSM cache threaded
explicitly (the only mutable state the call touches). -/
noncomputable def predictOperatorLocations (e : EngineV2) (cache : OsmCache)
    (incident_id : ℤ) (target_lat target_lon : ℝ)
    (drone_type approach_vector exit_vector : Option String) (time_of_day : String)
    (evidence_items : Option (List EvidenceItem)) : OperatorAnalysisV2 × OsmCache :=
  let r := loadOsmLanduse cache target_lat target_lon (e.search_radius_m / 1000)
  (buildAnalysis e incident_id target_lat target_lon drone_type approach_vector
    exit_vector time_of_day evidence_items r.1, r.2)

/-- A concrete hotspot record used to exercise the stable-sort tie-break. -/
def testHotspotA : OperatorHotspotV2 :=
  ⟨51.67, 5.71, 0.8, 0.7, 0.6, 1.0, 0.5, 0.7, "forest", "good", 1800, none, none,
    "first generated", 0.5, 0.7, 0.5, 0.5, 0.5, "MEDIUM", 0.6, ""⟩

/-- A second hotspot with the same `total_score` as `testHotspotA`. -/
def testHotspotB : OperatorHotspotV2 :=
  ⟨51.68, 5.72, 0.4, 0.7, 0.6, 1.0, 0.5, 0.7, "unknown", "good", 2300, none, none,
    "second generated", 0.5, 0.7, 0.5, 0.5, 0.5, "MEDIUM", 0.6, ""⟩

/-! ## C8: determinism across cache histories -/

/-- Evolution of the module-level OSM cache: any sequence of
`load_osm_landuse` calls (each engine invocation performs exactly one). -/
inductive CacheEvolves : OsmCache → OsmCache → Prop where
  | refl (c : OsmCache) : CacheEvolves c c
  | step (c c' : OsmCache) (lat lon radius_km : ℝ) :
      CacheEvolves c c' → CacheEvolves c (loadOsmLanduse c' lat lon radius_km).2

/-! ## C7: exfiltration score -/

/-- An `OSMData` whose only road is a remote footway. -/
def testOsmFootway : OSMData := ⟨0, 0, 1, [], [⟨"footway", 600⟩], []⟩

/-- An `OSMData` with no roads at all. -/
def testOsmNoRoads : OSMData := ⟨0, 0, 1, [], [], []⟩

/-- The nine score fields of one hotspot all lie in `[0, 1]`. -/
def hotspotScoresInRange (h : OperatorHotspotV2) : Prop :=
  (0 ≤ h.cover_score ∧ h.cover_score ≤ 1) ∧
  (0 ≤ h.concealment_score ∧ h.concealment_score ≤ 1) ∧
  (0 ≤ h.exfil_score ∧ h.exfil_score ≤ 1) ∧
  (0 ≤ h.range_score ∧ h.range_score ≤ 1) ∧
  (0 ≤ h.distance_score ∧ h.distance_score ≤ 1) ∧
  (0 ≤ h.los_score ∧ h.los_score ≤ 1) ∧
  (0 ≤ h.vector_alignment_score ∧ h.vector_alignment_score ≤ 1) ∧
  (0 ≤ h.locality_consistency_score ∧ h.locality_consistency_score ≤ 1) ∧
  (0 ≤ h.opsec_score ∧ h.opsec_score ≤ 1) ∧
  (0 ≤ h.total_score ∧ h.total_score ≤ 1)

/-! ## C6: line-of-sight quality -/

/-- The elevation map for the LOS counterexample: operator `(0,0)` and
target `(0, 0.001)` at 100 m, the nine interior samples of the default
10-sample scan at 50 m — the whole path 50 m below the sight line. -/
def cexElevationMap : ElevationMap :=
  [((0, 0), 100), ((0, 0.001), 100),
   ((0, 0.0001), 50), ((0, 0.0002), 50), ((0, 0.0003), 50), ((0, 0.0004), 50),
   ((0, 0.0005), 50), ((0, 0.0006), 50), ((0, 0.0007), 50), ((0, 0.0008), 50),
   ((0, 0.0009), 50)]

theorem havA_nonneg (lat1 lon1 lat2 lon2 : ℝ) : 0 ≤ havA lat1 lon1 lat2 lon2 := by
  unfold havA
  have h1 := sq_nonneg (sin (radians (lat2 - lat1) / 2))
  have h2 := sq_nonneg (sin (radians (lon2 - lon1) / 2))
  have hcc : cos (radians lat1) * cos (radians lat2) ≥ -1 := by
    nlinarith [neg_one_le_cos (radians lat1), neg_one_le_cos (radians lat2),
      cos_le_one (radians lat1), cos_le_one (radians lat2)]
  -- rewrite the squares of half-angle sines through the cosine of the full angle
  have e1 : sin (radians (lat2 - lat1) / 2) ^ 2 = 1 / 2 - cos (radians (lat2 - lat1)) / 2 := by
    have := sin_sq_eq_half_sub (radians (lat2 - lat1) / 2)
    rw [this]; ring_nf
  have e2 : sin (radians (lon2 - lon1) / 2) ^ 2 = 1 / 2 - cos (radians (lon2 - lon1)) / 2 := by
    have := sin_sq_eq_half_sub (radians (lon2 - lon1) / 2)
    rw [this]; ring_nf
  have hrad : radians (lat2 - lat1) = radians lat2 - radians lat1 := by
    unfold radians; ring
  rw [e1, e2, hrad, Real.cos_sub]
  have s1 := sin_sq_add_cos_sq (radians lat1)
  have s2 := sin_sq_add_cos_sq (radians lat2)
  have hc3 : -1 ≤ cos (radians (lon2 - lon1)) := neg_one_le_cos _
  have hc4 : cos (radians (lon2 - lon1)) ≤ 1 := cos_le_one _
  nlinarith [sq_nonneg (sin (radians lat1) - sin (radians lat2)),
    sq_nonneg (sin (radians lat1) + sin (radians lat2)),
    sq_nonneg (cos (radians lat1) - cos (radians lat2)),
    sq_nonneg (cos (radians lat1) + cos (radians lat2))]

theorem havA_le_one (lat1 lon1 lat2 lon2 : ℝ) : havA lat1 lon1 lat2 lon2 ≤ 1 := by
  unfold havA
  have e1 : sin (radians (lat2 - lat1) / 2) ^ 2 = 1 / 2 - cos (radians (lat2 - lat1)) / 2 := by
    have := sin_sq_eq_half_sub (radians (lat2 - lat1) / 2)
    rw [this]; ring_nf
  have e2 : sin (radians (lon2 - lon1) / 2) ^ 2 = 1 / 2 - cos (radians (lon2 - lon1)) / 2 := by
    have := sin_sq_eq_half_sub (radians (lon2 - lon1) / 2)
    rw [this]; ring_nf
  have hrad : radians (lat2 - lat1) = radians lat2 - radians lat1 := by
    unfold radians; ring
  rw [e1, e2, hrad, Real.cos_sub]
  have s1 := sin_sq_add_cos_sq (radians lat1)
  have s2 := sin_sq_add_cos_sq (radians lat2)
  have hc3 : -1 ≤ cos (radians (lon2 - lon1)) := neg_one_le_cos _
  have hc4 : cos (radians (lon2 - lon1)) ≤ 1 := cos_le_one _
  nlinarith [sq_nonneg (sin (radians lat1) - sin (radians lat2)),
    sq_nonneg (sin (radians lat1) + sin (radians lat2)),
    sq_nonneg (cos (radians lat1) - cos (radians lat2)),
    sq_nonneg (cos (radians lat1) + cos (radians lat2))]

/-- On the arguments the haversine produces (`y, x ≥ 0`, `y² + x² = 1`),
`atan2 y x` is `arcsin y`. -/
theorem atan2_eq_arcsin {a : ℝ} (h0 : 0 ≤ a) (h1 : a ≤ 1) :
    atan2 (Real.sqrt a) (Real.sqrt (1 - a)) = arcsin (Real.sqrt a) := by
  unfold atan2
  rcases lt_or_eq_of_le h1 with hlt | heq
  · have hx : 0 < Real.sqrt (1 - a) := Real.sqrt_pos.2 (by linarith)
    rw [if_pos hx]
    have hya : Real.sqrt a < 1 := by
      rw [show (1 : ℝ) = Real.sqrt 1 by simp]
      exact Real.sqrt_lt_sqrt h0 (by linarith)
    have hy0 : 0 ≤ Real.sqrt a := Real.sqrt_nonneg a
    have hmem : Real.sqrt a ∈ Set.Ioo (-1 : ℝ) 1 := ⟨by linarith, hya⟩
    rw [Real.arcsin_eq_arctan hmem]
    congr 1
    congr 1
    rw [Real.sq_sqrt h0]
  · subst heq
    have hx : Real.sqrt (1 - (1:ℝ)) = 0 := by simp
    rw [hx]
    simp [Real.arcsin_one]

theorem haversineKm_eq_arcsin (lat1 lon1 lat2 lon2 : ℝ) :
    haversineKm lat1 lon1 lat2 lon2 =
      12742 * arcsin (Real.sqrt (havA lat1 lon1 lat2 lon2)) := by
  unfold haversineKm
  rw [atan2_eq_arcsin (havA_nonneg _ _ _ _) (havA_le_one _ _ _ _)]
  ring

theorem haversineKm_nonneg (lat1 lon1 lat2 lon2 : ℝ) :
    0 ≤ haversineKm lat1 lon1 lat2 lon2 := by
  rw [haversineKm_eq_arcsin]
  have := Real.arcsin_nonneg.2 (Real.sqrt_nonneg (havA lat1 lon1 lat2 lon2))
  linarith

theorem havA_symm (lat1 lon1 lat2 lon2 : ℝ) :
    havA lat1 lon1 lat2 lon2 = havA lat2 lon2 lat1 lon1 := by
  unfold havA radians
  have h1 : (lat1 - lat2) * π / 180 / 2 = -((lat2 - lat1) * π / 180 / 2) := by ring
  have h2 : (lon1 - lon2) * π / 180 / 2 = -((lon2 - lon1) * π / 180 / 2) := by ring
  rw [h1, h2, Real.sin_neg, Real.sin_neg]
  ring

theorem haversineKm_symm (lat1 lon1 lat2 lon2 : ℝ) :
    haversineKm lat1 lon1 lat2 lon2 = haversineKm lat2 lon2 lat1 lon1 := by
  unfold haversineKm
  rw [havA_symm]

theorem havA_self (lat lon : ℝ) : havA lat lon lat lon = 0 := by
  unfold havA radians
  simp

theorem haversineKm_self (lat lon : ℝ) : haversineKm lat lon lat lon = 0 := by
  rw [haversineKm_eq_arcsin, havA_self]
  simp

/-- The threshold form of the haversine comparison used by the boundary check:
for `0 ≤ D` with `D/12742 ≤ π/2`, distance ≤ `D` km iff the haversine `a`
intermediate is at most `sin(D/12742)²`. -/
theorem haversineKm_le_iff (lat1 lon1 lat2 lon2 D : ℝ) (hD0 : 0 ≤ D)
    (hD2 : D / 12742 ≤ π / 2) :
    haversineKm lat1 lon1 lat2 lon2 ≤ D ↔
      havA lat1 lon1 lat2 lon2 ≤ sin (D / 12742) ^ 2 := by
  rw [haversineKm_eq_arcsin]
  have ha0 := havA_nonneg lat1 lon1 lat2 lon2
  have ha1 := havA_le_one lat1 lon1 lat2 lon2
  have hs0 : 0 ≤ Real.sqrt (havA lat1 lon1 lat2 lon2) := Real.sqrt_nonneg _
  have hs1 : Real.sqrt (havA lat1 lon1 lat2 lon2) ≤ 1 := by
    rw [show (1 : ℝ) = Real.sqrt 1 by simp]
    exact Real.sqrt_le_sqrt ha1
  have hD0' : 0 ≤ D / 12742 := by positivity
  have hsin0 : 0 ≤ sin (D / 12742) := by
    apply Real.sin_nonneg_of_nonneg_of_le_pi hD0'
    linarith [Real.pi_pos]
  constructor
  · intro h
    have harc : arcsin (Real.sqrt (havA lat1 lon1 lat2 lon2)) ≤ D / 12742 := by
      nlinarith
    have := (Real.arcsin_le_iff_le_sin ⟨by linarith, hs1⟩
      ⟨by linarith [Real.pi_pos], hD2⟩).1 harc
    nlinarith [Real.sq_sqrt ha0]
  · intro h
    have hsq : Real.sqrt (havA lat1 lon1 lat2 lon2) ≤ sin (D / 12742) := by
      have := Real.sqrt_le_sqrt h
      rwa [Real.sqrt_sq hsin0] at this
    have harc := (Real.arcsin_le_iff_le_sin ⟨by linarith, hs1⟩
      ⟨by linarith [Real.pi_pos], hD2⟩).2 hsq
    nlinarith

/-- At the registered Volkel centre, boundary lookup resolves to the Volkel
site (it is at distance 0; the remaining sites cannot beat `d < 0`). -/
theorem getSiteBoundaryByLocation_volkel :
    getSiteBoundaryByLocation 51.6564 5.7083 5.0 = some volkelBoundary := by
  unfold getSiteBoundaryByLocation
  simp only [KNOWN_SITES, List.foldl, volkelBoundary, eindhovenBoundary, schipholBoundary]
  rw [show haversineKm (51.6564 : ℝ) 5.7083 51.6564 5.7083 = 0 from haversineKm_self _ _]
  have d2 := haversineKm_nonneg 51.4500 5.3747 51.6564 5.7083
  have d3 := haversineKm_nonneg 52.3105 4.7683 51.6564 5.7083
  rw [if_pos (show (0 : ℝ) ≤ 5.0 ∧ ltMinDistance 0 none from ⟨by norm_num, trivial⟩)]
  have h2not : ¬ (haversineKm 51.4500 5.3747 51.6564 5.7083 ≤ 5.0 ∧
      ltMinDistance (haversineKm 51.4500 5.3747 51.6564 5.7083)
        (some (⟨"Volkel Air Base", 51.6564, 5.7083, some 1500, none, 200⟩, 0))) := by
    rintro ⟨-, h⟩
    simp only [ltMinDistance] at h
    exact absurd h (not_lt.2 d2)
  rw [if_neg h2not]
  have h3not : ¬ (haversineKm 52.3105 4.7683 51.6564 5.7083 ≤ 5.0 ∧
      ltMinDistance (haversineKm 52.3105 4.7683 51.6564 5.7083)
        (some (⟨"Volkel Air Base", 51.6564, 5.7083, some 1500, none, 200⟩, 0))) := by
    rintro ⟨-, h⟩
    simp only [ltMinDistance] at h
    exact absurd h (not_lt.2 d3)
  rw [if_neg h3not]
  rfl

/-! ## Structural lemmas about the engine stages -/

theorem assignRanks_length (k : ℕ) (l : List OperatorHotspotV2) :
    (assignRanks k l).length = l.length := by
  induction l generalizing k with
  | nil => rfl
  | cons h t ih => simp [assignRanks, ih]

theorem mem_assignRanks {b : OperatorHotspotV2} {k : ℕ} {l : List OperatorHotspotV2}
    (h : b ∈ assignRanks k l) :
    ∃ a ∈ l, ∃ j : ℕ,
      b = { a with reasoning := "Rank #" ++ toString j ++ ": " ++ a.reasoning } := by
  induction l generalizing k with
  | nil => simp [assignRanks] at h
  | cons hd t ih =>
      simp only [assignRanks, List.mem_cons] at h
      rcases h with h | h
      · exact ⟨hd, List.mem_cons_self _ _, k, h⟩
      · obtain ⟨a, ha, j, hj⟩ := ih h
        exact ⟨a, List.mem_cons_of_mem _ ha, j, hj⟩

/-- Membership chase: every emitted hotspot is a rank-annotated copy of a
scored hotspot of some surviving candidate. -/
theorem mem_predicted_hotspots {e : EngineV2} {incident_id : ℤ}
    {target_lat target_lon : ℝ} {drone_type approach_vector exit_vector : Option String}
    {time_of_day : String} {evidence_items : Option (List EvidenceItem)} {osm : OSMData}
    {h : OperatorHotspotV2}
    (hmem : h ∈ (buildAnalysis e incident_id target_lat target_lon drone_type
      approach_vector exit_vector time_of_day evidence_items osm).predicted_hotspots) :
    ∃ c ∈ survivingCandidates (getSiteBoundaryByLocation target_lat target_lon 5.0)
        target_lat target_lon,
      ∃ j : ℕ,
        h = { scoreCandidateV2 e c.lat c.lon target_lat target_lon osm
                (loadElevation target_lat target_lon (e.search_radius_m / 1000))
                drone_type approach_vector exit_vector time_of_day
                (engineEvidenceWeight evidence_items) with
              reasoning := "Rank #" ++ toString j ++ ": " ++
                (scoreCandidateV2 e c.lat c.lon target_lat target_lon osm
                  (loadElevation target_lat target_lon (e.search_radius_m / 1000))
                  drone_type approach_vector exit_vector time_of_day
                  (engineEvidenceWeight evidence_items)).reasoning } := by
  simp only [buildAnalysis] at hmem
  obtain ⟨a, ha, j, hj⟩ := mem_assignRanks hmem
  have ha2 : a ∈ sortHotspotsDesc (engineScoredHotspots e target_lat target_lon
      drone_type approach_vector exit_vector time_of_day
      (engineEvidenceWeight evidence_items) osm
      (loadElevation target_lat target_lon (e.search_radius_m / 1000))) :=
    List.mem_of_mem_take ha
  rw [sortHotspotsDesc, List.mem_mergeSort] at ha2
  simp only [engineScoredHotspots, List.mem_map] at ha2
  obtain ⟨c, hc, hca⟩ := ha2
  exact ⟨c, hc, j, by rw [hj, hca]⟩

theorem mem_survivingCandidates {site_boundary : Option SiteBoundary}
    {target_lat target_lon : ℝ} {c : Candidate}
    (h : c ∈ survivingCandidates site_boundary target_lat target_lon) :
    c ∈ generateCandidateGrid target_lat target_lon ∧ keepCandidate site_boundary c := by
  rw [survivingCandidates, List.mem_filter] at h
  exact ⟨h.1, of_decide_eq_true h.2⟩

/-- **C1** Hard-constraint invariant: whenever the boundary lookup around the
target resolves a `SiteBoundary B` (5 km radius), every hotspot in the
returned `predicted_hotspots` lies strictly outside `B`
(`is_inside_boundary` is false at its coordinates): candidates inside the
boundary are discarded before scoring and scoring preserves coordinates. -/
theorem hard_constraint_invariant (e : EngineV2) (cache : OsmCache) (incident_id : ℤ)
    (target_lat target_lon : ℝ) (drone_type approach_vector exit_vector : Option String)
    (time_of_day : String) (evidence_items : Option (List EvidenceItem))
    (B : SiteBoundary) (hB : getSiteBoundaryByLocation target_lat target_lon 5.0 = some B) :
    List.Forall (fun h => ¬ isInsideBoundary B h.latitude h.longitude)
      ((predictOperatorLocations e cache incident_id target_lat target_lon drone_type
        approach_vector exit_vector time_of_day evidence_items).1.predicted_hotspots) := by
  rw [List.forall_iff_forall_mem]
  intro h hmem
  simp only [predictOperatorLocations] at hmem
  obtain ⟨c, hc, j, hj⟩ := mem_predicted_hotspots hmem
  obtain ⟨-, hkeep⟩ := mem_survivingCandidates hc
  rw [hB] at hkeep
  simp only [keepCandidate] at hkeep
  have hlat : h.latitude = c.lat := by rw [hj]; rfl
  have hlon : h.longitude = c.lon := by rw [hj]; rfl
  rw [hlat, hlon]
  exact hkeep

/-- **C1 witness**: the invariant instantiated at the registered Volkel
centre, where the lookup resolves the Volkel boundary. -/
theorem hard_constraint_invariant_witness :
    List.Forall (fun h => ¬ isInsideBoundary volkelBoundary h.latitude h.longitude)
      ((predictOperatorLocations defaultEngineV2 [] 1 51.6564 5.7083 none none none
        "day" none).1.predicted_hotspots) :=
  hard_constraint_invariant defaultEngineV2 [] 1 51.6564 5.7083 none none none
    "day" none volkelBoundary getSiteBoundaryByLocation_volkel

/-- **C10** The nearest-road hint is constant: every emitted hotspot carries
`nearest_road_type = "secondary_road"` and `nearest_road_distance_m = 50.0`,
for every input — `_score_candidate_v2` hardcodes both fields and never
consults the loaded OSM road data. -/
theorem nearest_road_hint_constant (e : EngineV2) (cache : OsmCache) (incident_id : ℤ)
    (target_lat target_lon : ℝ) (drone_type approach_vector exit_vector : Option String)
    (time_of_day : String) (evidence_items : Option (List EvidenceItem)) :
    List.Forall (fun h => h.nearest_road_type = some "secondary_road" ∧
        h.nearest_road_distance_m = some 50.0)
      ((predictOperatorLocations e cache incident_id target_lat target_lon drone_type
        approach_vector exit_vector time_of_day evidence_items).1.predicted_hotspots) := by
  rw [List.forall_iff_forall_mem]
  intro h hmem
  simp only [predictOperatorLocations] at hmem
  obtain ⟨c, hc, j, hj⟩ := mem_predicted_hotspots hmem
  exact ⟨by rw [hj]; rfl, by rw [hj]; rfl⟩

/-- **C5 counterexample**: invoking the engine with an empty evidence list
yields aggregate evidence weight 0.5 — the neutral default of
`evidence_weight_data.get("total_weight", 0.5)` — not the claimed 0.0,
because `compute_evidence_weight` is only called when the list is truthy. -/
theorem empty_evidence_weight_counterexample :
    (predictOperatorLocations defaultEngineV2 [] 1 51.6564 5.7083 none none none
        "day" (some [])).1.evidence_weight = 0.5 ∧
      ¬ (predictOperatorLocations defaultEngineV2 [] 1 51.6564 5.7083 none none none
        "day" (some [])).1.evidence_weight = 0.0 := by
  constructor
  · rfl
  · intro h
    have h5 : (predictOperatorLocations defaultEngineV2 [] 1 51.6564 5.7083 none none none
        "day" (some [])).1.evidence_weight = 0.5 := rfl
    rw [h5] at h
    norm_num at h

/-- **C5 amended**: with an empty or absent `evidence_items` list the engine
never calls `compute_evidence_weight`; the weight used in scoring and echoed
in `OperatorAnalysisV2.evidence_weight` is the fallback 0.5.
(`compute_evidence_weight` itself does return `total_weight = 0.0` on an
empty list, but that code path is unreachable from the engine.) -/
theorem empty_evidence_weight_amended (e : EngineV2) (cache : OsmCache)
    (incident_id : ℤ) (target_lat target_lon : ℝ)
    (drone_type approach_vector exit_vector : Option String) (time_of_day : String)
    (evidence_items : Option (List EvidenceItem))
    (hempty : evidence_items = none ∨ evidence_items = some []) :
    (predictOperatorLocations e cache incident_id target_lat target_lon drone_type
        approach_vector exit_vector time_of_day evidence_items).1.evidence_weight = 0.5 ∧
      (computeEvidenceWeight []).total_weight = 0.0 := by
  constructor
  · rcases hempty with h | h <;> subst h <;> rfl
  · rfl

/-- **C5 amended witness**: the amended statement at a concrete invocation
with an explicitly empty evidence list. -/
theorem empty_evidence_weight_amended_witness :
    (predictOperatorLocations defaultEngineV2 [] 7 52.0 5.0 none none none
        "night" (some [])).1.evidence_weight = 0.5 ∧
      (computeEvidenceWeight []).total_weight = 0.0 :=
  empty_evidence_weight_amended defaultEngineV2 [] 7 52.0 5.0 none none none
    "night" (some []) (Or.inr rfl)

/-- **C9 counterexample**: constructing a `SiteBoundary` with *both* a radius
and polygon vertices is accepted by `__init__` (no exception), contradicting
the claim that it is rejected at construction time. -/
theorem boundary_both_shapes_counterexample :
    mkSiteBoundary "Both Shapes" 0 0 (some 1500) (some [(0, 0), (0, 1), (1, 1)]) 200 =
      .ok ⟨"Both Shapes", 0, 0, some 1500, some [(0, 0), (0, 1), (1, 1)], 200⟩ := rfl

/-- **C9 amended**: `SiteBoundary.__init__` raises `ValueError` exactly when
*neither* shape is given; a boundary with both a radius and polygon vertices
is accepted as constructed (`is_inside_boundary` then uses the radius, which
is checked first). -/
theorem boundary_validation_amended (site_name : String) (center_lat center_lon
    safety_buffer_m : ℝ) :
    mkSiteBoundary site_name center_lat center_lon none none safety_buffer_m =
        .error "Must provide either radius_m or polygon_vertices" ∧
      (∀ (r : ℝ) (vs : List (ℝ × ℝ)),
        mkSiteBoundary site_name center_lat center_lon (some r) (some vs) safety_buffer_m =
          .ok ⟨site_name, center_lat, center_lon, some r, some vs, safety_buffer_m⟩) ∧
      (∀ (b : SiteBoundary) (r : ℝ) (lat lon : ℝ), b.radius_m = some r →
        (isInsideBoundary b lat lon ↔
          haversineKm b.center_lat b.center_lon lat lon * 1000 ≤ r + b.safety_buffer_m)) := by
  refine ⟨rfl, fun r vs => rfl, fun b r lat lon hr => ?_⟩
  rw [isInsideBoundary, hr]

/-- **C9 amended witness**: the amended statement at concrete inputs. -/
theorem boundary_validation_amended_witness :
    mkSiteBoundary "W" 1 2 none none 200 =
        .error "Must provide either radius_m or polygon_vertices" ∧
      mkSiteBoundary "W" 1 2 (some 5) (some [(0, 0)]) 200 =
        .ok ⟨"W", 1, 2, some 5, some [(0, 0)], 200⟩ ∧
      (isInsideBoundary volkelBoundary 51.6564 5.7083 ↔
        haversineKm volkelBoundary.center_lat volkelBoundary.center_lon 51.6564 5.7083 *
            1000 ≤ 1500 + volkelBoundary.safety_buffer_m) := by
  obtain ⟨h1, h2, h3⟩ := boundary_validation_amended "W" 1 2 200
  exact ⟨h1, h2 5 [(0, 0)], h3 volkelBoundary 1500 51.6564 5.7083 rfl⟩

/-! ## Sorting and ranking lemmas -/

theorem hotspotLE_trans (a b c : OperatorHotspotV2)
    (hab : hotspotLE a b = true) (hbc : hotspotLE b c = true) : hotspotLE a c = true := by
  simp only [hotspotLE, decide_eq_true_eq] at *
  linarith

theorem hotspotLE_total (a b : OperatorHotspotV2) :
    (hotspotLE a b || hotspotLE b a) = true := by
  simp only [hotspotLE, Bool.or_eq_true, decide_eq_true_eq]
  exact le_total b.total_score a.total_score

theorem sortHotspotsDesc_pairwise (l : List OperatorHotspotV2) :
    List.Pairwise (fun a b => b.total_score ≤ a.total_score) (sortHotspotsDesc l) := by
  have := List.sorted_mergeSort hotspotLE_trans hotspotLE_total l
  exact this.imp (fun h => by simpa [hotspotLE] using h)

theorem assignRanks_pairwise {P : ℝ → ℝ → Prop} {l : List OperatorHotspotV2} (k : ℕ)
    (h : List.Pairwise (fun a b => P a.total_score b.total_score) l) :
    List.Pairwise (fun a b => P a.total_score b.total_score) (assignRanks k l) := by
  induction l generalizing k with
  | nil => exact List.Pairwise.nil
  | cons hd t ih =>
      rw [List.pairwise_cons] at h
      refine List.Pairwise.cons ?_ (ih (k + 1) h.2)
      intro b hb
      obtain ⟨a, ha, j, hj⟩ := mem_assignRanks hb
      have h1 : b.total_score = a.total_score := by rw [hj]
      have h2 : ({ hd with reasoning := "Rank #" ++ toString k ++ ": " ++
          hd.reasoning } : OperatorHotspotV2).total_score = hd.total_score := rfl
      rw [h1, h2]
      exact h.1 a ha

theorem assignRanks_getElem? (l : List OperatorHotspotV2) (k i : ℕ) :
    (assignRanks k l)[i]? = l[i]?.map
      (fun a => { a with reasoning := "Rank #" ++ toString (k + i) ++ ": " ++ a.reasoning }) := by
  induction l generalizing k i with
  | nil => simp [assignRanks]
  | cons hd t ih =>
      cases i with
      | zero => simp [assignRanks]
      | succ n =>
          simp only [assignRanks, List.getElem?_cons_succ, ih (k + 1) n]
          have : k + 1 + n = k + (n + 1) := by omega
          rw [this]

/-- **C4** Ranking order: the emitted hotspot list is non-increasing in
`total_score`; it has `min 3 N` entries (`N` = surviving candidates); the
`i`-th entry's reasoning carries the exact prefix `"Rank #(i+1): "` (ranks
`1..N`, no gaps); and the sort is stable, so among candidates with equal
`total_score` the earlier-generated one (distance-major, bearing-minor
order) is ranked first. -/
theorem ranking_order (e : EngineV2) (cache : OsmCache) (incident_id : ℤ)
    (target_lat target_lon : ℝ) (drone_type approach_vector exit_vector : Option String)
    (time_of_day : String) (evidence_items : Option (List EvidenceItem)) :
    List.Pairwise (fun a b => b.total_score ≤ a.total_score)
      ((predictOperatorLocations e cache incident_id target_lat target_lon drone_type
        approach_vector exit_vector time_of_day evidence_items).1.predicted_hotspots) ∧
    ((predictOperatorLocations e cache incident_id target_lat target_lon drone_type
        approach_vector exit_vector time_of_day evidence_items).1.predicted_hotspots).length =
      min 3 (engineScoredHotspots e target_lat target_lon drone_type approach_vector
        exit_vector time_of_day (engineEvidenceWeight evidence_items)
        (loadOsmLanduse cache target_lat target_lon (e.search_radius_m / 1000)).1
        (loadElevation target_lat target_lon (e.search_radius_m / 1000))).length ∧
    (∀ i : ℕ,
      match ((predictOperatorLocations e cache incident_id target_lat target_lon drone_type
        approach_vector exit_vector time_of_day evidence_items).1.predicted_hotspots)[i]? with
      | some h => ∃ s, h.reasoning = "Rank #" ++ toString (i + 1) ++ ": " ++ s
      | none => True) ∧
    (∀ (l : List OperatorHotspotV2) (a b : OperatorHotspotV2),
      a.total_score = b.total_score → [a, b].Sublist l →
        [a, b].Sublist (sortHotspotsDesc l)) := by
  refine ⟨?_, ?_, ?_, ?_⟩
  · simp only [predictOperatorLocations, buildAnalysis]
    exact @assignRanks_pairwise (fun x y => y ≤ x) _ 1
      ((sortHotspotsDesc_pairwise _).sublist (List.take_sublist 3 _))
  · simp only [predictOperatorLocations, buildAnalysis]
    rw [assignRanks_length, List.length_take, sortHotspotsDesc, List.length_mergeSort]
  · intro i
    simp only [predictOperatorLocations, buildAnalysis]
    rw [assignRanks_getElem?]
    cases hx : ((sortHotspotsDesc _).take 3)[i]? with
    | none => simp
    | some a =>
        exact ⟨a.reasoning, by rw [Nat.add_comm 1 i]⟩
  · intro l a b htot hsub
    apply List.sublist_mergeSort hotspotLE_trans hotspotLE_total
    · refine List.pairwise_cons.2 ⟨?_, ?_⟩
      · intro b' hb'
        rw [List.mem_singleton] at hb'
        subst hb'
        simp [hotspotLE, htot]
      · simp
    · exact hsub

/-- **C4 witness**: the ranking-order theorem instantiated at a concrete
invocation, with the stability clause applied to a concrete two-element list
of equal-score hotspots. -/
theorem ranking_order_witness :
    List.Pairwise (fun a b => b.total_score ≤ a.total_score)
      ((predictOperatorLocations defaultEngineV2 [] 1 51.6564 5.7083 none none none
        "day" none).1.predicted_hotspots) ∧
    [testHotspotA, testHotspotB].Sublist
      (sortHotspotsDesc [testHotspotA, testHotspotB]) := by
  obtain ⟨h1, -, -, h4⟩ := ranking_order defaultEngineV2 [] 1 51.6564 5.7083 none none none
    "day" none
  exact ⟨h1, h4 [testHotspotA, testHotspotB] testHotspotA testHotspotB rfl
    (List.Sublist.refl _)⟩

theorem osmCacheLookup_load_persist {c : OsmCache} {k : ℝ × ℝ × ℝ} {v : OSMData}
    (h : osmCacheLookup c k = some v) (lat lon radius_km : ℝ) :
    osmCacheLookup (loadOsmLanduse c lat lon radius_km).2 k = some v := by
  unfold loadOsmLanduse
  cases hl : osmCacheLookup c (pyRound lat 4, pyRound lon 4, radius_km) with
  | some d => simp only [hl]; exact h
  | none =>
      simp only [hl, osmCacheLookup]
      rw [if_neg]
      · exact h
      · intro he
        rw [he] at hl
        rw [h] at hl
        exact Option.noConfusion hl

theorem cacheEvolves_persist {c c' : OsmCache} (h : CacheEvolves c c')
    {k : ℝ × ℝ × ℝ} {v : OSMData} (hk : osmCacheLookup c k = some v) :
    osmCacheLookup c' k = some v := by
  induction h with
  | refl => exact hk
  | step c'' lat lon radius_km _ ih => exact osmCacheLookup_load_persist ih lat lon radius_km

theorem loadOsm_lookup_after (c : OsmCache) (lat lon radius_km : ℝ) :
    osmCacheLookup (loadOsmLanduse c lat lon radius_km).2
        (pyRound lat 4, pyRound lon 4, radius_km) =
      some (loadOsmLanduse c lat lon radius_km).1 := by
  unfold loadOsmLanduse
  cases hl : osmCacheLookup c (pyRound lat 4, pyRound lon 4, radius_km) with
  | some d => simp only [hl]
  | none => simp [hl, osmCacheLookup]

theorem loadOsm_result_of_lookup {c : OsmCache} {lat lon radius_km : ℝ} {v : OSMData}
    (h : osmCacheLookup c (pyRound lat 4, pyRound lon 4, radius_km) = some v) :
    (loadOsmLanduse c lat lon radius_km).1 = v := by
  simp only [loadOsmLanduse, h]

/-- **C8** Determinism: a later call of `predict_operator_locations` with
identical arguments returns an analysis identical to the earlier call's,
whatever other engine invocations touched the OSM cache in between (the
boundary registry is a static constant, elevation loading and scoring are
pure functions, candidate generation never consults the cache, and a cache
key is never overwritten once written). -/
theorem predict_deterministic (e : EngineV2) (c0 c1 : OsmCache) (incident_id : ℤ)
    (target_lat target_lon : ℝ) (drone_type approach_vector exit_vector : Option String)
    (time_of_day : String) (evidence_items : Option (List EvidenceItem))
    (hevolve : CacheEvolves (predictOperatorLocations e c0 incident_id target_lat
      target_lon drone_type approach_vector exit_vector time_of_day evidence_items).2 c1) :
    (predictOperatorLocations e c1 incident_id target_lat target_lon drone_type
        approach_vector exit_vector time_of_day evidence_items).1 =
      (predictOperatorLocations e c0 incident_id target_lat target_lon drone_type
        approach_vector exit_vector time_of_day evidence_items).1 := by
  have hpost : osmCacheLookup (predictOperatorLocations e c0 incident_id target_lat
      target_lon drone_type approach_vector exit_vector time_of_day evidence_items).2
      (pyRound target_lat 4, pyRound target_lon 4, e.search_radius_m / 1000) =
      some (loadOsmLanduse c0 target_lat target_lon (e.search_radius_m / 1000)).1 :=
    loadOsm_lookup_after c0 target_lat target_lon (e.search_radius_m / 1000)
  have h1 := cacheEvolves_persist hevolve hpost
  have h2 : (loadOsmLanduse c1 target_lat target_lon (e.search_radius_m / 1000)).1 =
      (loadOsmLanduse c0 target_lat target_lon (e.search_radius_m / 1000)).1 :=
    loadOsm_result_of_lookup h1
  simp only [predictOperatorLocations]
  rw [h2]

/-- **C8 witness**: the determinism theorem at a concrete invocation, the
second call running on the cache state left by the first. -/
theorem predict_deterministic_witness :
    (predictOperatorLocations defaultEngineV2
        (predictOperatorLocations defaultEngineV2 [] 1 51.6564 5.7083 none none none
          "day" none).2 1 51.6564 5.7083 none none none "day" none).1 =
      (predictOperatorLocations defaultEngineV2 [] 1 51.6564 5.7083 none none none
        "day" none).1 :=
  predict_deterministic defaultEngineV2 [] _ 1 51.6564 5.7083 none none none "day" none
    (CacheEvolves.refl _)

theorem lookup_getD_bounds {l : List (String × ℝ)} {lo hi d : ℝ}
    (hdef : lo ≤ d ∧ d ≤ hi) (h : ∀ p ∈ l, lo ≤ p.2 ∧ p.2 ≤ hi) (s : String) :
    lo ≤ ((l.lookup s).getD d) ∧ ((l.lookup s).getD d) ≤ hi := by
  induction l with
  | nil => simpa using hdef
  | cons p t ih =>
      obtain ⟨k, v⟩ := p
      simp only [List.lookup]
      cases hb : (s == k) with
      | true => simpa using h (k, v) (List.mem_cons_self _ _)
      | false => exact ih (fun q hq => h q (List.mem_cons_of_mem _ hq))

theorem roadQuality_bounds (s : String) :
    0 ≤ ((ROAD_QUALITY_SCORES.lookup s).getD 0.50) ∧
      ((ROAD_QUALITY_SCORES.lookup s).getD 0.50) ≤ 1 := by
  refine lookup_getD_bounds (by norm_num) ?_ s
  intro p hp
  fin_cases hp <;> norm_num

theorem exfilRoute_mem_score_bounds {lat lon : ℝ} {osm : OSMData} {r : ExfilRoute}
    (hr : r ∈ computeExfilRoutes lat lon osm) : 0 ≤ r.score ∧ r.score ≤ 1 := by
  rw [computeExfilRoutes, List.mem_mergeSort, List.mem_map] at hr
  obtain ⟨road, -, hrd⟩ := hr
  subst hrd
  obtain ⟨hq0, hq1⟩ := roadQuality_bounds road.type
  constructor
  · apply mul_nonneg hq0
    split_ifs <;> norm_num
  · apply mul_le_one₀ hq1
    · split_ifs <;> norm_num
    · split_ifs <;> norm_num

theorem scoreExfil_bounds (lat lon : ℝ) (osm : OSMData) :
    0 ≤ scoreExfilAttractiveness lat lon osm ∧ scoreExfilAttractiveness lat lon osm ≤ 1 := by
  rw [scoreExfilAttractiveness]
  cases hroutes : computeExfilRoutes lat lon osm with
  | nil => norm_num
  | cons best rest =>
      have hb : best ∈ computeExfilRoutes lat lon osm := by
        rw [hroutes]; exact List.mem_cons_self _ _
      obtain ⟨h0, h1⟩ := exfilRoute_mem_score_bounds hb
      constructor
      · refine le_min (by norm_num) ?_
        have hbonus : (0:ℝ) ≤ (if (best :: rest).length ≥ 3 then 0.15
            else if (best :: rest).length ≥ 2 then 0.10 else 0.0) := by
          split_ifs <;> norm_num
        have hdiv : (0:ℝ) ≤ ((((best :: rest).take 3).map (fun r => r.type)).dedup.length : ℝ) * 0.05 := by
          positivity
        linarith
      · exact le_trans (min_le_left _ _) (by norm_num)

/-- **C7 counterexample**: with a single footway 600 m away the exfiltration
score is `0.1 · 0.4 + 0 + 0.05 = 0.09`, strictly below the claimed floor of
0.2 — the 0.2 minimum only applies when *no* road is found. -/
theorem exfil_floor_counterexample :
    scoreExfilAttractiveness 0 0 testOsmFootway = 0.09 ∧
      scoreExfilAttractiveness 0 0 testOsmFootway < 0.2 := by
  have h : scoreExfilAttractiveness 0 0 testOsmFootway = 0.09 := by
    rw [scoreExfilAttractiveness, computeExfilRoutes]
    simp [testOsmFootway, ROAD_QUALITY_SCORES, List.lookup, List.dedup]
    norm_num [min_def]
  exact ⟨h, by rw [h]; norm_num⟩

/-- **C7 amended**: the exfiltration score is always within `[0, 1]`, and it
equals exactly 0.2 when no road segments are present; with roads present it
is `min(1, best + bonuses)`, which can fall below 0.2 (see the
counterexample). -/
theorem exfil_floor_amended (lat lon : ℝ) (osm : OSMData) :
    0 ≤ scoreExfilAttractiveness lat lon osm ∧
      scoreExfilAttractiveness lat lon osm ≤ 1 ∧
      (osm.roads = [] → scoreExfilAttractiveness lat lon osm = 0.2) := by
  obtain ⟨h0, h1⟩ := scoreExfil_bounds lat lon osm
  refine ⟨h0, h1, fun hempty => ?_⟩
  rw [scoreExfilAttractiveness, computeExfilRoutes, hempty]
  simp

/-- **C7 amended witness**: the amended statement at a concrete roadless
`OSMData`. -/
theorem exfil_floor_amended_witness :
    0 ≤ scoreExfilAttractiveness 3 4 testOsmNoRoads ∧
      scoreExfilAttractiveness 3 4 testOsmNoRoads ≤ 1 ∧
      scoreExfilAttractiveness 3 4 testOsmNoRoads = 0.2 := by
  obtain ⟨h0, h1, h2⟩ := exfil_floor_amended 3 4 testOsmNoRoads
  exact ⟨h0, h1, h2 rfl⟩

/-! ## C3: score bounds -/

theorem min_one_mem {x : ℝ} (hx : 0 ≤ x) : 0 ≤ min 1.0 x ∧ min 1.0 x ≤ 1 :=
  ⟨le_min (by norm_num) hx, le_trans (min_le_left _ _) (by norm_num)⟩

theorem coverTable_bounds (s : String) :
    0 ≤ ((LANDUSE_COVER_SCORES.lookup s).getD 0.40) ∧
      ((LANDUSE_COVER_SCORES.lookup s).getD 0.40) ≤ 1 := by
  refine lookup_getD_bounds (by norm_num) ?_ s
  intro p hp
  fin_cases hp <;> norm_num

theorem concealTable_bounds (s : String) :
    0 ≤ ((LANDUSE_CONCEALMENT_MULT.lookup s).getD 0.6) ∧
      ((LANDUSE_CONCEALMENT_MULT.lookup s).getD 0.6) ≤ 1 := by
  refine lookup_getD_bounds (by norm_num) ?_ s
  intro p hp
  fin_cases hp <;> norm_num

theorem coverScore_bounds (lat lon : ℝ) (osm : OSMData) (emap : ElevationMap) :
    0 ≤ computeCoverScore lat lon osm emap ∧ computeCoverScore lat lon osm emap ≤ 1 := by
  rw [computeCoverScore]
  obtain ⟨hb0, hb1⟩ := coverTable_bounds (getLanduseAtPoint lat lon osm)
  apply min_one_mem
  have h1 : (0:ℝ) ≤ (if getElevationAtPoint lat lon emap -
      getElevationAtPoint osm.center_lat osm.center_lon emap < -10 then 0.10
    else if getElevationAtPoint lat lon emap -
      getElevationAtPoint osm.center_lat osm.center_lon emap < 0 then 0.05 else 0.0) := by
    split_ifs <;> norm_num
  have h2 : (0:ℝ) ≤ (if osm.buildings ≠ [] then 0.05 else 0.0) := by
    split_ifs <;> norm_num
  linarith

theorem concealmentScore_bounds (lat lon : ℝ) (osm : OSMData) (emap : ElevationMap)
    (time_of_day : String) :
    0 ≤ computeConcealmentScore lat lon osm emap time_of_day ∧
      computeConcealmentScore lat lon osm emap time_of_day ≤ 1 := by
  rw [computeConcealmentScore]
  obtain ⟨hb0, hb1⟩ := coverTable_bounds (getLanduseAtPoint lat lon osm)
  obtain ⟨hm0, hm1⟩ := concealTable_bounds (getLanduseAtPoint lat lon osm)
  apply min_one_mem
  have hbase : (0:ℝ) ≤ ((LANDUSE_COVER_SCORES.lookup (getLanduseAtPoint lat lon osm)).getD 0.40) *
      ((LANDUSE_CONCEALMENT_MULT.lookup (getLanduseAtPoint lat lon osm)).getD 0.6) :=
    mul_nonneg hb0 hm0
  have h1 : (0:ℝ) ≤ (if time_of_day = "night" then 0.20 else 0.0) := by
    split_ifs <;> norm_num
  have h2 : (0:ℝ) ≤ (if 5 < |getElevationAtPoint lat lon emap -
      getElevationAtPoint osm.center_lat osm.center_lon emap| ∧
      |getElevationAtPoint lat lon emap -
        getElevationAtPoint osm.center_lat osm.center_lon emap| < 30 then 0.10 else 0.0) := by
    split_ifs <;> norm_num
  linarith

theorem rangeProfile_facts (drone_type : Option String) :
    0 < (getDroneRangeProfile drone_type).min_range ∧
      (getDroneRangeProfile drone_type).min_range < (getDroneRangeProfile drone_type).optimal_range ∧
      (getDroneRangeProfile drone_type).optimal_range < (getDroneRangeProfile drone_type).max_range := by
  cases drone_type with
  | none => norm_num [getDroneRangeProfile, unknownProfile]
  | some s =>
      rw [getDroneRangeProfile]
      split_ifs <;> norm_num [unknownProfile]

theorem rangeScore_bounds (distance_m : ℝ) (hd : 0 ≤ distance_m)
    (drone_type : Option String) :
    0 ≤ computeRangeScore distance_m drone_type ∧
      computeRangeScore distance_m drone_type ≤ 1 := by
  obtain ⟨hmin, hopt, hmax⟩ := rangeProfile_facts drone_type
  rw [computeRangeScore]
  split_ifs with h1 h2 h3
  · constructor
    · positivity
    · have : distance_m / (getDroneRangeProfile drone_type).min_range ≤ 1 :=
        (div_le_one hmin).2 (le_of_lt h1)
      nlinarith
  · have hr0 : 0 ≤ (distance_m - (getDroneRangeProfile drone_type).min_range) /
        ((getDroneRangeProfile drone_type).optimal_range -
          (getDroneRangeProfile drone_type).min_range) := by
      apply div_nonneg (by linarith) (by linarith)
    have hr1 : (distance_m - (getDroneRangeProfile drone_type).min_range) /
        ((getDroneRangeProfile drone_type).optimal_range -
          (getDroneRangeProfile drone_type).min_range) ≤ 1 :=
      (div_le_one (by linarith)).2 (by linarith)
    constructor <;> nlinarith
  · have hr0 : 0 ≤ (distance_m - (getDroneRangeProfile drone_type).optimal_range) /
        ((getDroneRangeProfile drone_type).max_range -
          (getDroneRangeProfile drone_type).optimal_range) := by
      apply div_nonneg (by linarith) (by linarith)
    have hr1 : (distance_m - (getDroneRangeProfile drone_type).optimal_range) /
        ((getDroneRangeProfile drone_type).max_range -
          (getDroneRangeProfile drone_type).optimal_range) ≤ 1 :=
      (div_le_one (by linarith)).2 (by linarith)
    constructor <;> nlinarith
  · constructor
    · exact le_max_of_le_left (by norm_num)
    · apply max_le (by norm_num)
      have hq : 0 ≤ (distance_m - (getDroneRangeProfile drone_type).max_range) /
          (getDroneRangeProfile drone_type).max_range := by
        apply div_nonneg (by push_neg at h3; linarith) (by linarith)
      nlinarith

theorem losScan_invariant (operator_lat operator_lon target_lat target_lon : ℝ)
    (emap : ElevationMap) (num_samples : ℕ) :
    0 ≤ (losScan operator_lat operator_lon target_lat target_lon emap num_samples).1 ∧
      ((losScan operator_lat operator_lon target_lat target_lon emap num_samples).2 = true →
        10 < (losScan operator_lat operator_lon target_lat target_lon emap num_samples).1) := by
  rw [losScan]
  have key : ∀ (l : List ℕ) (st : ℝ × Bool), (0 ≤ st.1 ∧ (st.2 = true → 10 < st.1)) →
      (0 ≤ (l.foldl (losStep operator_lat operator_lon target_lat target_lon emap
          num_samples) st).1 ∧
        ((l.foldl (losStep operator_lat operator_lon target_lat target_lon emap
          num_samples) st).2 = true →
          10 < (l.foldl (losStep operator_lat operator_lon target_lat target_lon emap
            num_samples) st).1)) := by
    intro l
    induction l with
    | nil => exact fun st h => h
    | cons i t ih =>
        intro st hst
        rw [List.foldl_cons]
        apply ih
        rw [losStep]
        constructor
        · dsimp only
          split_ifs with h1
          · linarith [hst.1]
          · exact hst.1
        · dsimp only
          split_ifs with h1 h2 <;> intro hb
          · linarith
          · linarith [not_lt.1 h2]
          · linarith [hst.2 hb]
          · linarith [hst.2 hb]
  exact key _ _ ⟨by norm_num, by simp⟩

theorem computeLineOfSight_quality_bounds (operator_lat operator_lon target_lat
    target_lon : ℝ) (emap : ElevationMap) (num_samples : ℕ) :
    0 ≤ (computeLineOfSight operator_lat operator_lon target_lat target_lon emap
        num_samples).quality ∧
      (computeLineOfSight operator_lat operator_lon target_lat target_lon emap
        num_samples).quality ≤ 1 := by
  obtain ⟨h0, hb⟩ := losScan_invariant operator_lat operator_lon target_lat target_lon
    emap num_samples
  rw [computeLineOfSight]
  dsimp only
  split_ifs with h1 h2 h3
  · constructor
    · exact le_max_of_le_left (by norm_num)
    · apply max_le (by norm_num)
      have h10 := hb h1
      have hdiv : 0 ≤ ((losScan operator_lat operator_lon target_lat target_lon emap
          num_samples).1 - 10) / 50 := div_nonneg (by linarith) (by norm_num)
      linarith
  · norm_num
  · norm_num
  · norm_num

theorem losQualityScore_bounds (operator_lat operator_lon target_lat target_lon : ℝ)
    (emap : ElevationMap) :
    0 ≤ computeLosQualityScore operator_lat operator_lon target_lat target_lon emap ∧
      computeLosQualityScore operator_lat operator_lon target_lat target_lon emap ≤ 1 := by
  obtain ⟨h0, h1⟩ := computeLineOfSight_quality_bounds operator_lat operator_lon
    target_lat target_lon emap 10
  rw [computeLosQualityScore]
  apply min_one_mem
  have hbonus : (0:ℝ) ≤ (if (computeLineOfSight operator_lat operator_lon target_lat
      target_lon emap 10).operator_elevation_m - (computeLineOfSight operator_lat
      operator_lon target_lat target_lon emap 10).target_elevation_m > 20 then 0.10
    else if (computeLineOfSight operator_lat operator_lon target_lat target_lon emap
      10).operator_elevation_m - (computeLineOfSight operator_lat operator_lon
      target_lat target_lon emap 10).target_elevation_m > 10 then 0.05 else 0.0) := by
    split_ifs <;> norm_num
  linarith

theorem lookup_some_mem {l : List (String × ℝ)} {s : String} {v : ℝ}
    (h : l.lookup s = some v) : ∃ k, (k, v) ∈ l := by
  induction l with
  | nil => simp [List.lookup] at h
  | cons p t ih =>
      obtain ⟨k, w⟩ := p
      simp only [List.lookup] at h
      cases hb : (s == k) with
      | true =>
          rw [hb] at h
          simp only [Option.some.injEq] at h
          exact ⟨k, by rw [h]; exact List.mem_cons_self _ _⟩
      | false =>
          rw [hb] at h
          obtain ⟨k', hk'⟩ := ih h
          exact ⟨k', List.mem_cons_of_mem _ hk'⟩

theorem findDirection_some_mem {l : List (String × ℝ)} {p : String → Prop} {v : ℝ}
    (h : findDirection l p = some v) : ∃ k, (k, v) ∈ l := by
  induction l with
  | nil => simp [findDirection] at h
  | cons q t ih =>
      obtain ⟨k, w⟩ := q
      rw [findDirection] at h
      split_ifs at h with hp
      · simp only [Option.some.injEq] at h
        exact ⟨k, by rw [h]; exact List.mem_cons_self _ _⟩
      · obtain ⟨k', hk'⟩ := ih h
        exact ⟨k', List.mem_cons_of_mem _ hk'⟩

theorem parseDirection_bounds {s : Option String} {v : ℝ}
    (h : parseDirection s = some v) : 0 ≤ v ∧ v ≤ 360 := by
  cases s with
  | none => exact Option.noConfusion h
  | some str =>
      rw [parseDirection] at h
      split_ifs at h
      dsimp only at h
      cases h1 : DIRECTION_TO_DEGREES.lookup (str.toUpper.trim) with
      | some w =>
          rw [h1] at h
          simp only [Option.some.injEq] at h
          subst h
          obtain ⟨k, hk⟩ := lookup_some_mem h1
          fin_cases hk <;> norm_num
      | none =>
          rw [h1] at h
          cases h2 : findDirection DIRECTION_TO_DEGREES
              (fun k => pyStrIn k (str.toUpper.trim) ∨ pyStrIn (str.toUpper.trim) k) with
          | some w =>
              rw [h2] at h
              simp only [Option.some.injEq] at h
              subst h
              obtain ⟨k, hk⟩ := findDirection_some_mem h2
              fin_cases hk <;> norm_num
          | none =>
              rw [h2] at h
              obtain ⟨k, hk⟩ := findDirection_some_mem h
              fin_cases hk <;> norm_num

theorem pymod_bounds (x m : ℝ) (hm : 0 < m) : 0 ≤ pymod x m ∧ pymod x m < m := by
  rw [pymod]
  constructor
  · have h1 : (⌊x / m⌋ : ℝ) ≤ x / m := Int.floor_le _
    have h2 : m * (⌊x / m⌋ : ℝ) ≤ m * (x / m) := by
      exact mul_le_mul_of_nonneg_left h1 (le_of_lt hm)
    rw [mul_div_cancel₀ x (ne_of_gt hm)] at h2
    linarith
  · have h1 : x / m < (⌊x / m⌋ : ℝ) + 1 := Int.lt_floor_add_one _
    have h2 : m * (x / m) < m * ((⌊x / m⌋ : ℝ) + 1) := by
      exact mul_lt_mul_of_pos_left h1 hm
    rw [mul_div_cancel₀ x (ne_of_gt hm)] at h2
    nlinarith

theorem computeBearing_bounds (lat1 lon1 lat2 lon2 : ℝ) :
    0 ≤ computeBearing lat1 lon1 lat2 lon2 ∧ computeBearing lat1 lon1 lat2 lon2 < 360 := by
  rw [computeBearing]
  exact pymod_bounds _ 360 (by norm_num)

theorem angularDifference_bounds {e a : ℝ} (he0 : 0 ≤ e) (he1 : e ≤ 360)
    (ha0 : 0 ≤ a) (ha1 : a < 360) :
    0 ≤ angularDifference e a ∧ angularDifference e a ≤ 180 := by
  rw [angularDifference]
  have habs : |e - a| ≤ 360 := by
    rw [abs_le]
    constructor <;> linarith
  have habs0 : 0 ≤ |e - a| := abs_nonneg _
  split_ifs with h1
  · constructor <;> linarith
  · constructor <;> linarith [not_lt.1 h1]

theorem vectorAlignment_score_bounds (hotspot_lat hotspot_lon target_lat target_lon : ℝ)
    (approach_vector : Option String) (cw : ℝ) (hcw0 : 0 ≤ cw) (hcw1 : cw ≤ 1) :
    0 ≤ (scoreVectorAlignment hotspot_lat hotspot_lon target_lat target_lon
        approach_vector cw).alignment_score ∧
      (scoreVectorAlignment hotspot_lat hotspot_lon target_lat target_lon
        approach_vector cw).alignment_score ≤ 1 := by
  rw [scoreVectorAlignment]
  split_ifs with h1
  · norm_num
  · cases hp : parseDirection approach_vector with
    | none => norm_num
    | some expected =>
        obtain ⟨he0, he1⟩ := parseDirection_bounds hp
        obtain ⟨ha0, ha1⟩ := computeBearing_bounds hotspot_lat hotspot_lon target_lat target_lon
        obtain ⟨hd0, hd1⟩ := angularDifference_bounds he0 he1 ha0 ha1
        dsimp only
        set diff := angularDifference expected
          (computeBearing hotspot_lat hotspot_lon target_lat target_lon) with hdiff
        have hraw : 0 ≤ (if diff ≤ 30 then 1.0
            else if diff ≤ 60 then 1.0 - (diff - 30) / 30 * 0.3
            else if diff ≤ 90 then 0.7 - (diff - 60) / 30 * 0.4
            else 0.3 - (diff - 90) / 90 * 0.3) ∧
            (if diff ≤ 30 then 1.0
            else if diff ≤ 60 then 1.0 - (diff - 30) / 30 * 0.3
            else if diff ≤ 90 then 0.7 - (diff - 60) / 30 * 0.4
            else 0.3 - (diff - 90) / 90 * 0.3) ≤ 1 := by
          split_ifs with g1 g2 g3
          · norm_num
          · constructor <;> [nlinarith [not_le.1 g1]; nlinarith [not_le.1 g1]]
          · constructor <;> [nlinarith [not_le.1 g2]; nlinarith [not_le.1 g2]]
          · constructor <;> [nlinarith [not_le.1 g3]; nlinarith [not_le.1 g3]]
        constructor <;> nlinarith [hraw.1, hraw.2]

theorem evidenceWeight_bounds (items : List EvidenceItem)
    (hcred : ∀ it ∈ items, 0 ≤ it.credibility_score ∧ it.credibility_score ≤ 1) :
    0 ≤ (computeEvidenceWeight items).total_weight ∧
      (computeEvidenceWeight items).total_weight ≤ 1 := by
  cases items with
  | nil => norm_num [computeEvidenceWeight]
  | cons e rest =>
      rw [computeEvidenceWeight]
      dsimp only
      have hlen : (0:ℝ) < ((e :: rest).length : ℝ) := by
        exact_mod_cast Nat.succ_pos rest.length
      have hsum0 : 0 ≤ ((e :: rest).map (fun x => x.credibility_score)).sum := by
        apply List.sum_nonneg
        intro x hx
        rw [List.mem_map] at hx
        obtain ⟨it, hit, rfl⟩ := hx
        exact (hcred it hit).1
      have hsum1 : ((e :: rest).map (fun x => x.credibility_score)).sum ≤
          ((e :: rest).length : ℝ) := by
        have := List.sum_le_card_nsmul ((e :: rest).map (fun x => x.credibility_score)) 1 ?_
        · simpa [nsmul_eq_mul] using this
        · intro x hx
          rw [List.mem_map] at hx
          obtain ⟨it, hit, rfl⟩ := hx
          exact (hcred it hit).2
      have havg0 : 0 ≤ ((e :: rest).map (fun x => x.credibility_score)).sum /
          ((e :: rest).length : ℝ) := div_nonneg hsum0 (le_of_lt hlen)
      have havg1 : ((e :: rest).map (fun x => x.credibility_score)).sum /
          ((e :: rest).length : ℝ) ≤ 1 := by
        rw [div_le_one hlen]
        exact hsum1
      have hdiv0 : (0:ℝ) ≤ (((( e :: rest).map (fun x => x.source_type)).dedup.length : ℝ)) /
          ((max (e :: rest).length 5 : ℕ) : ℝ) := by positivity
      have hdiv1 : (((( e :: rest).map (fun x => x.source_type)).dedup.length : ℝ)) /
          ((max (e :: rest).length 5 : ℕ) : ℝ) ≤ 1 := by
        rw [div_le_one (by positivity)]
        have h1 : ((e :: rest).map (fun x => x.source_type)).dedup.length ≤
            ((e :: rest).map (fun x => x.source_type)).length :=
          (List.dedup_sublist _).length_le
        have h2 : ((e :: rest).map (fun x => x.source_type)).length = (e :: rest).length :=
          List.length_map _ _
        have h3 : (e :: rest).length ≤ max (e :: rest).length 5 := le_max_left _ _
        exact_mod_cast le_trans h1 (le_trans (le_of_eq h2) h3)
      have hcf0 : (0:ℝ) ≤ (if (e :: rest).length = 1 then 0.7
          else if (e :: rest).length ≤ 3 then 0.85
          else if (e :: rest).length ≤ 5 then 0.95 else 1.0) := by
        split_ifs <;> norm_num
      apply min_one_mem
      have h1p : (0:ℝ) ≤ 1 + (((( e :: rest).map (fun x => x.source_type)).dedup.length : ℝ)) /
          ((max (e :: rest).length 5 : ℕ) : ℝ) * 0.2 := by nlinarith [hdiv0]
      exact mul_nonneg (mul_nonneg havg0 hcf0) h1p

theorem engineEvidenceWeight_bounds (evidence_items : Option (List EvidenceItem))
    (hcred : ∀ it ∈ evidence_items.getD [], 0 ≤ it.credibility_score ∧
      it.credibility_score ≤ 1) :
    0 ≤ engineEvidenceWeight evidence_items ∧ engineEvidenceWeight evidence_items ≤ 1 := by
  match evidence_items with
  | none => norm_num [engineEvidenceWeight]
  | some [] => norm_num [engineEvidenceWeight]
  | some (e :: rest) =>
      rw [engineEvidenceWeight]
      exact evidenceWeight_bounds (e :: rest) (by simpa using hcred)

theorem opsecPenalty_bounds (distance_m perimeter_radius_m : ℝ) :
    0 ≤ computeOpsecPenalty distance_m perimeter_radius_m ∧
      computeOpsecPenalty distance_m perimeter_radius_m ≤ 1 := by
  rw [computeOpsecPenalty]
  split_ifs <;> norm_num

theorem composite_total_bounds (c cc ex r l v lc op : ℝ)
    (hc : 0 ≤ c ∧ c ≤ 1) (hcc : 0 ≤ cc ∧ cc ≤ 1) (hex : 0 ≤ ex ∧ ex ≤ 1)
    (hr : 0 ≤ r ∧ r ≤ 1) (hl : 0 ≤ l ∧ l ≤ 1) (hv : 0 ≤ v ∧ v ≤ 1)
    (hlc : 0 ≤ lc ∧ lc ≤ 1) (hop : 0 ≤ op ∧ op ≤ 1) :
    0 ≤ (computeCompositeScoreV2 c cc ex r l v lc op none).total_score ∧
      (computeCompositeScoreV2 c cc ex r l v lc op none).total_score ≤ 1 := by
  rw [computeCompositeScoreV2]
  dsimp only [Option.getD, defaultWeights]
  constructor
  · apply mul_nonneg _ hop.1
    nlinarith [hc.1, hcc.1, hex.1, hr.1, hl.1, hv.1, hlc.1]
  · nlinarith [hc.1, hcc.1, hex.1, hr.1, hl.1, hv.1, hlc.1, hop.1, hop.2,
      hc.2, hcc.2, hex.2, hr.2, hl.2, hv.2, hlc.2]

theorem nightRules_bounds (base_score : ℝ) (time_of_day : String)
    (cover_score concealment_score : ℝ) (hb0 : 0 ≤ base_score) (hb1 : base_score ≤ 1)
    (hcc : 0 ≤ concealment_score) :
    0 ≤ applyNightOperationRules base_score time_of_day cover_score concealment_score ∧
      applyNightOperationRules base_score time_of_day cover_score concealment_score ≤ 1 := by
  rw [applyNightOperationRules]
  split_ifs with h1 h2
  · exact ⟨hb0, hb1⟩
  all_goals
    apply min_one_mem
    nlinarith

theorem scoreCandidateV2_bounds (e : EngineV2) (candidate_lat candidate_lon
    target_lat target_lon : ℝ) (osm : OSMData) (emap : ElevationMap)
    (drone_type approach_vector exit_vector : Option String) (time_of_day : String)
    (evidence_weight : ℝ) (hew0 : 0 ≤ evidence_weight) (hew1 : evidence_weight ≤ 1) :
    hotspotScoresInRange (scoreCandidateV2 e candidate_lat candidate_lon target_lat
      target_lon osm emap drone_type approach_vector exit_vector time_of_day
      evidence_weight) := by
  have hdist : 0 ≤ haversineKm candidate_lat candidate_lon target_lat target_lon * 1000 := by
    have := haversineKm_nonneg candidate_lat candidate_lon target_lat target_lon
    linarith
  obtain ⟨hc0, hc1⟩ := coverScore_bounds candidate_lat candidate_lon osm emap
  obtain ⟨hcc0, hcc1⟩ := concealmentScore_bounds candidate_lat candidate_lon osm emap
    time_of_day
  obtain ⟨hex0, hex1⟩ := scoreExfil_bounds candidate_lat candidate_lon osm
  obtain ⟨hr0, hr1⟩ := rangeScore_bounds _ hdist drone_type
  obtain ⟨hl0, hl1⟩ := losQualityScore_bounds candidate_lat candidate_lon target_lat
    target_lon emap
  obtain ⟨hv0, hv1⟩ := vectorAlignment_score_bounds candidate_lat candidate_lon
    target_lat target_lon approach_vector 0.8 (by norm_num) (by norm_num)
  obtain ⟨hop0, hop1⟩ := opsecPenalty_bounds
    (haversineKm candidate_lat candidate_lon target_lat target_lon * 1000)
    e.perimeter_radius_m
  obtain ⟨ht0, ht1⟩ := composite_total_bounds _ _ _ _ _ _ _ _
    ⟨hc0, hc1⟩ ⟨hcc0, hcc1⟩ ⟨hex0, hex1⟩ ⟨hr0, hr1⟩ ⟨hl0, hl1⟩ ⟨hv0, hv1⟩
    ⟨hew0, hew1⟩ ⟨hop0, hop1⟩
  obtain ⟨hn0, hn1⟩ := nightRules_bounds _ time_of_day
    (computeCoverScore candidate_lat candidate_lon osm emap)
    (computeConcealmentScore candidate_lat candidate_lon osm emap time_of_day)
    ht0 ht1 hcc0
  exact ⟨⟨hc0, hc1⟩, ⟨hcc0, hcc1⟩, ⟨hex0, hex1⟩, ⟨hr0, hr1⟩, ⟨hr0, hr1⟩,
    ⟨hl0, hl1⟩, ⟨hv0, hv1⟩, ⟨hew0, hew1⟩, ⟨hop0, hop1⟩, ⟨hn0, hn1⟩⟩

/-- **C3** Score bounds: for every invocation (any target, drone type,
vectors, time of day, cache state, and any evidence whose credibility
scores respect the interface contract `credibility_score ∈ [0,1]`), every
scored candidate's component scores — cover, concealment, exfil, range
(= `distance_score`), line of sight, vector alignment, locality consistency,
OPSEC gate — and the `total_score` produced by `compute_composite_score_v2`
followed by `apply_night_operation_rules` all lie in `[0, 1]`. -/
theorem score_bounds (e : EngineV2) (cache : OsmCache) (target_lat target_lon : ℝ)
    (drone_type approach_vector exit_vector : Option String) (time_of_day : String)
    (evidence_items : Option (List EvidenceItem))
    (hcred : ∀ it ∈ evidence_items.getD [], 0 ≤ it.credibility_score ∧
      it.credibility_score ≤ 1) :
    List.Forall hotspotScoresInRange
      (engineScoredHotspots e target_lat target_lon drone_type approach_vector
        exit_vector time_of_day (engineEvidenceWeight evidence_items)
        (loadOsmLanduse cache target_lat target_lon (e.search_radius_m / 1000)).1
        (loadElevation target_lat target_lon (e.search_radius_m / 1000))) := by
  rw [List.forall_iff_forall_mem]
  intro h hmem
  rw [engineScoredHotspots, List.mem_map] at hmem
  obtain ⟨c, -, rfl⟩ := hmem
  obtain ⟨hw0, hw1⟩ := engineEvidenceWeight_bounds evidence_items hcred
  exact scoreCandidateV2_bounds e c.lat c.lon target_lat target_lon _ _ drone_type
    approach_vector exit_vector time_of_day _ hw0 hw1

/-- **C3 witness**: the score-bounds theorem at a concrete invocation with no
evidence (the credibility hypothesis is vacuous). -/
theorem score_bounds_witness :
    List.Forall hotspotScoresInRange
      (engineScoredHotspots defaultEngineV2 51.6564 5.7083 none none none "day"
        (engineEvidenceWeight none)
        (loadOsmLanduse [] 51.6564 5.7083 (defaultEngineV2.search_radius_m / 1000)).1
        (loadElevation 51.6564 5.7083 (defaultEngineV2.search_radius_m / 1000))) :=
  score_bounds defaultEngineV2 [] 51.6564 5.7083 none none none "day" none
    (fun it hit => absurd hit (List.not_mem_nil it))

theorem pyRoundInt_intCast (n : ℤ) : pyRoundInt (n : ℝ) = n := by
  rw [pyRoundInt, Int.floor_intCast, if_neg (by norm_num)]
  exact round_intCast n

theorem pyRound5_eval {x : ℝ} {n : ℤ} (h : x * 100000 = (n : ℝ)) :
    pyRound x 5 = (n : ℝ) / 100000 := by
  rw [pyRound, show ((10:ℝ) ^ (5:ℕ)) = 100000 by norm_num, h, pyRoundInt_intCast]

theorem cexRound_0 : pyRound (0:ℝ) 5 = 0 := by
  rw [pyRound5_eval (show (0:ℝ) * 100000 = ((0:ℤ) : ℝ) by norm_num)]; norm_num

theorem cexRound_10 : pyRound ((1:ℝ)/1000) 5 = 1/1000 := by
  rw [pyRound5_eval (show ((1:ℝ)/1000) * 100000 = ((100:ℤ) : ℝ) by norm_num)]; norm_num

theorem cexRound_1 : pyRound ((1:ℝ)/10000) 5 = 1/10000 := by
  rw [pyRound5_eval (show ((1:ℝ)/10000) * 100000 = ((10:ℤ) : ℝ) by norm_num)]; norm_num

theorem cexRound_2 : pyRound ((1:ℝ)/5000) 5 = 1/5000 := by
  rw [pyRound5_eval (show ((1:ℝ)/5000) * 100000 = ((20:ℤ) : ℝ) by norm_num)]; norm_num

theorem cexRound_3 : pyRound ((3:ℝ)/10000) 5 = 3/10000 := by
  rw [pyRound5_eval (show ((3:ℝ)/10000) * 100000 = ((30:ℤ) : ℝ) by norm_num)]; norm_num

theorem cexRound_4 : pyRound ((1:ℝ)/2500) 5 = 1/2500 := by
  rw [pyRound5_eval (show ((1:ℝ)/2500) * 100000 = ((40:ℤ) : ℝ) by norm_num)]; norm_num

theorem cexRound_5 : pyRound ((1:ℝ)/2000) 5 = 1/2000 := by
  rw [pyRound5_eval (show ((1:ℝ)/2000) * 100000 = ((50:ℤ) : ℝ) by norm_num)]; norm_num

theorem cexRound_6 : pyRound ((3:ℝ)/5000) 5 = 3/5000 := by
  rw [pyRound5_eval (show ((3:ℝ)/5000) * 100000 = ((60:ℤ) : ℝ) by norm_num)]; norm_num

theorem cexRound_7 : pyRound ((7:ℝ)/10000) 5 = 7/10000 := by
  rw [pyRound5_eval (show ((7:ℝ)/10000) * 100000 = ((70:ℤ) : ℝ) by norm_num)]; norm_num

theorem cexRound_8 : pyRound ((1:ℝ)/1250) 5 = 1/1250 := by
  rw [pyRound5_eval (show ((1:ℝ)/1250) * 100000 = ((80:ℤ) : ℝ) by norm_num)]; norm_num

theorem cexRound_9 : pyRound ((9:ℝ)/10000) 5 = 9/10000 := by
  rw [pyRound5_eval (show ((9:ℝ)/10000) * 100000 = ((90:ℤ) : ℝ) by norm_num)]; norm_num

theorem cex_operator_elev : getElevationAtPoint 0 0 cexElevationMap = 100 := by
  rw [getElevationAtPoint.eq_def]
  norm_num [cexRound_0, cexRound_10, cexRound_1, cexRound_2, cexRound_3, cexRound_4, cexRound_5, cexRound_6, cexRound_7, cexRound_8, cexRound_9, emapLookup, cexElevationMap, Prod.ext_iff]

theorem cex_target_elev : getElevationAtPoint 0 ((1:ℝ)/1000) cexElevationMap = 100 := by
  rw [getElevationAtPoint.eq_def]
  norm_num [cexRound_0, cexRound_10, cexRound_1, cexRound_2, cexRound_3, cexRound_4, cexRound_5, cexRound_6, cexRound_7, cexRound_8, cexRound_9, emapLookup, cexElevationMap, Prod.ext_iff]

theorem cex_sample_elev_1 : getElevationAtPoint 0 ((1:ℝ)/10000) cexElevationMap = 50 := by
  rw [getElevationAtPoint.eq_def]
  norm_num [cexRound_0, cexRound_10, cexRound_1, cexRound_2, cexRound_3, cexRound_4, cexRound_5, cexRound_6, cexRound_7, cexRound_8, cexRound_9, emapLookup, cexElevationMap, Prod.ext_iff]

theorem cex_sample_elev_2 : getElevationAtPoint 0 ((1:ℝ)/5000) cexElevationMap = 50 := by
  rw [getElevationAtPoint.eq_def]
  norm_num [cexRound_0, cexRound_10, cexRound_1, cexRound_2, cexRound_3, cexRound_4, cexRound_5, cexRound_6, cexRound_7, cexRound_8, cexRound_9, emapLookup, cexElevationMap, Prod.ext_iff]

theorem cex_sample_elev_3 : getElevationAtPoint 0 ((3:ℝ)/10000) cexElevationMap = 50 := by
  rw [getElevationAtPoint.eq_def]
  norm_num [cexRound_0, cexRound_10, cexRound_1, cexRound_2, cexRound_3, cexRound_4, cexRound_5, cexRound_6, cexRound_7, cexRound_8, cexRound_9, emapLookup, cexElevationMap, Prod.ext_iff]

theorem cex_sample_elev_4 : getElevationAtPoint 0 ((1:ℝ)/2500) cexElevationMap = 50 := by
  rw [getElevationAtPoint.eq_def]
  norm_num [cexRound_0, cexRound_10, cexRound_1, cexRound_2, cexRound_3, cexRound_4, cexRound_5, cexRound_6, cexRound_7, cexRound_8, cexRound_9, emapLookup, cexElevationMap, Prod.ext_iff]

theorem cex_sample_elev_5 : getElevationAtPoint 0 ((1:ℝ)/2000) cexElevationMap = 50 := by
  rw [getElevationAtPoint.eq_def]
  norm_num [cexRound_0, cexRound_10, cexRound_1, cexRound_2, cexRound_3, cexRound_4, cexRound_5, cexRound_6, cexRound_7, cexRound_8, cexRound_9, emapLookup, cexElevationMap, Prod.ext_iff]

theorem cex_sample_elev_6 : getElevationAtPoint 0 ((3:ℝ)/5000) cexElevationMap = 50 := by
  rw [getElevationAtPoint.eq_def]
  norm_num [cexRound_0, cexRound_10, cexRound_1, cexRound_2, cexRound_3, cexRound_4, cexRound_5, cexRound_6, cexRound_7, cexRound_8, cexRound_9, emapLookup, cexElevationMap, Prod.ext_iff]

theorem cex_sample_elev_7 : getElevationAtPoint 0 ((7:ℝ)/10000) cexElevationMap = 50 := by
  rw [getElevationAtPoint.eq_def]
  norm_num [cexRound_0, cexRound_10, cexRound_1, cexRound_2, cexRound_3, cexRound_4, cexRound_5, cexRound_6, cexRound_7, cexRound_8, cexRound_9, emapLookup, cexElevationMap, Prod.ext_iff]

theorem cex_sample_elev_8 : getElevationAtPoint 0 ((1:ℝ)/1250) cexElevationMap = 50 := by
  rw [getElevationAtPoint.eq_def]
  norm_num [cexRound_0, cexRound_10, cexRound_1, cexRound_2, cexRound_3, cexRound_4, cexRound_5, cexRound_6, cexRound_7, cexRound_8, cexRound_9, emapLookup, cexElevationMap, Prod.ext_iff]

theorem cex_sample_elev_9 : getElevationAtPoint 0 ((9:ℝ)/10000) cexElevationMap = 50 := by
  rw [getElevationAtPoint.eq_def]
  norm_num [cexRound_0, cexRound_10, cexRound_1, cexRound_2, cexRound_3, cexRound_4, cexRound_5, cexRound_6, cexRound_7, cexRound_8, cexRound_9, emapLookup, cexElevationMap, Prod.ext_iff]

theorem cex_los_result :
    computeLineOfSight 0 0 0 0.001 cexElevationMap 10 = ⟨true, false, 0, 0.8, 100, 100⟩ := by
  rw [computeLineOfSight, losScan]
  rw [show List.range' 1 (10 - 1) = [1, 2, 3, 4, 5, 6, 7, 8, 9] from rfl]
  simp only [List.foldl_cons, List.foldl_nil, losStep]
  norm_num [cex_operator_elev, cex_target_elev, cex_sample_elev_1, cex_sample_elev_2,
    cex_sample_elev_3, cex_sample_elev_4, cex_sample_elev_5, cex_sample_elev_6,
    cex_sample_elev_7, cex_sample_elev_8, cex_sample_elev_9, LosResult.mk.injEq]

theorem computeLineOfSight_unblocked_quality (operator_lat operator_lon target_lat
    target_lon : ℝ) (emap : ElevationMap) (num_samples : ℕ)
    (hb : (computeLineOfSight operator_lat operator_lon target_lat target_lon emap
      num_samples).blocked = false) :
    (computeLineOfSight operator_lat operator_lon target_lat target_lon emap
      num_samples).quality = 0.8 := by
  obtain ⟨h0, -⟩ := losScan_invariant operator_lat operator_lon target_lat target_lon
    emap num_samples
  simp only [computeLineOfSight] at hb ⊢
  rw [hb]
  rw [if_neg (by simp)]
  rw [if_neg (not_lt.2 (by linarith)), if_neg (not_lt.2 (by linarith))]

/-- **C6** The claimed quality classification of `compute_line_of_sight` is
not what the code computes: `max_obstruction` is seeded at `0.0` and only
ever increased, so the `< -10` (quality 1.0) and `< 0` (quality 0.9)
branches are unreachable — whenever the path is not blocked the quality is
0.8, and in particular on a path running 50 m *below* the sight line
(operator and target at 100 m, all nine interior samples at 50 m) the code
answers 0.8 where the claim requires 1.0.  The blocked-path penalty
`max(0, 0.5 - (max_obstruction - 10)/50)` is as claimed. -/
theorem los_quality_classification :
    (∀ (operator_lat operator_lon target_lat target_lon : ℝ) (emap : ElevationMap)
      (num_samples : ℕ),
      (computeLineOfSight operator_lat operator_lon target_lat target_lon emap
        num_samples).blocked = false →
      (computeLineOfSight operator_lat operator_lon target_lat target_lon emap
        num_samples).quality = 0.8) ∧
    computeLineOfSight 0 0 0 0.001 cexElevationMap 10 = ⟨true, false, 0, 0.8, 100, 100⟩ ∧
    List.Forall (fun lon => getElevationAtPoint 0 lon cexElevationMap = 50)
      [(1:ℝ)/10000, 1/5000, 3/10000, 1/2500, 1/2000, 3/5000, 7/10000, 1/1250, 9/10000] ∧
    (∀ (operator_lat operator_lon target_lat target_lon : ℝ) (emap : ElevationMap)
      (num_samples : ℕ),
      (computeLineOfSight operator_lat operator_lon target_lat target_lon emap
        num_samples).blocked = true →
      (computeLineOfSight operator_lat operator_lon target_lat target_lon emap
        num_samples).quality = max 0.0 (0.5 -
          ((computeLineOfSight operator_lat operator_lon target_lat target_lon emap
            num_samples).max_obstruction_m - 10) / 50)) := by
  refine ⟨computeLineOfSight_unblocked_quality, cex_los_result, ?_, ?_⟩
  · refine List.forall_iff_forall_mem.2 ?_
    intro x hx
    fin_cases hx
    · exact cex_sample_elev_1
    · exact cex_sample_elev_2
    · exact cex_sample_elev_3
    · exact cex_sample_elev_4
    · exact cex_sample_elev_5
    · exact cex_sample_elev_6
    · exact cex_sample_elev_7
    · exact cex_sample_elev_8
    · exact cex_sample_elev_9
  · intro olat olon tlat tlon emap n hb
    simp only [computeLineOfSight] at hb ⊢
    rw [hb]
    rw [if_pos (by simp)]

/-- **C6 witness**: the unreachable-branch fact applied at the concrete
below-the-line path: the code reports quality 0.8 there. -/
theorem los_quality_classification_witness :
    (computeLineOfSight 0 0 0 0.001 cexElevationMap 10).quality = 0.8 := by
  obtain ⟨h1, h2, -, -⟩ := los_quality_classification
  exact h1 0 0 0 0.001 cexElevationMap 10 (by rw [h2])

/-! ## C2: the Volkel concrete scenario -/

theorem abs_cos_sub_cos_le (x y : ℝ) : |cos x - cos y| ≤ |x - y| := by
  rw [Real.cos_sub_cos]
  have h1 : |sin ((x + y) / 2)| ≤ 1 := Real.abs_sin_le_one _
  have h2 : |sin ((x - y) / 2)| ≤ |(x - y) / 2| := Real.abs_sin_le_abs
  have h3 : |(-2 : ℝ) * sin ((x + y) / 2) * sin ((x - y) / 2)| =
      2 * |sin ((x + y) / 2)| * |sin ((x - y) / 2)| := by
    rw [abs_mul, abs_mul]
    norm_num
  rw [h3]
  have h4 : |(x - y) / 2| = |x - y| / 2 := by
    rw [abs_div]
    norm_num
  nlinarith [abs_nonneg (sin ((x + y) / 2)), abs_nonneg (sin ((x - y) / 2)),
    abs_nonneg (x - y)]

theorem sin_sq_ge_small_nonneg {x : ℝ} (h0 : 0 ≤ x) (hx : x ≤ 1e-3) :
    x ^ 2 * (1 - 1e-5) ≤ sin x ^ 2 := by
  have hb := Real.sin_bound (show |x| ≤ 1 by rw [abs_of_nonneg h0]; linarith)
  rw [abs_of_nonneg h0] at hb
  have hlo : x - x ^ 3 / 6 - x ^ 4 * (5 / 96) ≤ sin x := by
    have := (abs_le.1 hb).1
    linarith
  have hx2 : x ^ 2 ≤ 1e-6 := by nlinarith
  have hx3 : x ^ 3 ≤ x * 1e-6 := by nlinarith
  have hx4 : x ^ 4 ≤ x * 1e-9 := by nlinarith
  have heps : x ^ 3 / 6 + x ^ 4 * (5 / 96) ≤ x * 2e-7 := by nlinarith
  have hA : x * (1 - 2e-7) ≤ sin x := by nlinarith
  have hApos : 0 ≤ x * (1 - 2e-7) := by nlinarith
  nlinarith [mul_self_le_mul_self hApos hA, sq_nonneg x]

theorem sin_sq_ge_small {x : ℝ} (hx : |x| ≤ 1e-3) :
    x ^ 2 * (1 - 1e-5) ≤ sin x ^ 2 := by
  rcases le_or_lt 0 x with h | h
  · exact sin_sq_ge_small_nonneg h (by rwa [abs_of_nonneg h] at hx)
  · have h1 : sin x ^ 2 = sin (-x) ^ 2 := by rw [Real.sin_neg]; ring
    have h2 : x ^ 2 = (-x) ^ 2 := by ring
    rw [h1, h2]
    exact sin_sq_ge_small_nonneg (by linarith)
      (by rwa [abs_of_neg h] at hx)

/-- Numeric lower bound on `cos(radians 51.6564)` (Volkel's latitude). -/
theorem volkel_gamma_lb : (0.559 : ℝ) ≤ cos (radians 51.6564) := by
  have hπl : (3.141592 : ℝ) < π := Real.pi_gt_d6
  have hπu : π < 3.141593 := Real.pi_lt_d6
  have hφl : 0 ≤ radians 51.6564 := by rw [radians]; positivity
  have hφu : radians 51.6564 ≤ 0.9016 := by rw [radians]; nlinarith
  have h1 : cos 0.9016 ≤ cos (radians 51.6564) :=
    Real.cos_le_cos_of_nonneg_of_le_pi hφl (by nlinarith) hφu
  have hb := Real.cos_bound (show |(0.9016 : ℝ)| ≤ 1 by rw [abs_of_nonneg] <;> norm_num)
  rw [abs_of_nonneg (by norm_num : (0:ℝ) ≤ 0.9016)] at hb
  have h2 : 1 - (0.9016:ℝ) ^ 2 / 2 - 0.9016 ^ 4 * (5 / 96) ≤ cos 0.9016 := by
    have := (abs_le.1 hb).1
    linarith
  nlinarith

theorem sin_thr_ub : sin (1.7 / 12742) ≤ 1.7 / 12742 :=
  Real.sin_le (by norm_num)

theorem sin_thr_lb : (1.7 / 12742 : ℝ) * (1 - 1e-6) ≤ sin (1.7 / 12742) := by
  have hb := Real.sin_bound (show |(1.7 / 12742 : ℝ)| ≤ 1 by rw [abs_of_nonneg] <;> norm_num)
  rw [abs_of_nonneg (by norm_num : (0:ℝ) ≤ 1.7 / 12742)] at hb
  have h1 : (1.7 / 12742 : ℝ) - (1.7 / 12742) ^ 3 / 6 - (1.7 / 12742) ^ 4 * (5 / 96) ≤
      sin (1.7 / 12742) := by
    have := (abs_le.1 hb).1
    linarith
  nlinarith

theorem sin_thr_nonneg : 0 ≤ sin (1.7 / 12742) := by
  have := sin_thr_lb
  nlinarith

/-- Upper bound on the haversine `a` for near candidates (`d ≤ 1.5` km):
small enough to stay within the 1700 m exclusion distance. -/
theorem volkelA_upper (d θ : ℝ) (h0 : 0 ≤ d) (h15 : d ≤ 1.5) :
    havA 51.6564 5.7083 (51.6564 + (d / 111.0) * cos (radians θ))
      (5.7083 + (d / (111.0 * cos (radians 51.6564))) * sin (radians θ)) ≤
      sin (1.7 / 12742) ^ 2 := by
  have hπl : (3.141592 : ℝ) < π := Real.pi_gt_d6
  have hπu : π < 3.141593 := Real.pi_lt_d6
  have hγ : (0.559 : ℝ) ≤ cos (radians 51.6564) := volkel_gamma_lb
  have hγ1 : cos (radians 51.6564) ≤ 1 := cos_le_one _
  have hγ0 : (0:ℝ) < cos (radians 51.6564) := by linarith
  set γ := cos (radians 51.6564) with hγdef
  set c := cos (radians θ) with hcdef
  set s := sin (radians θ) with hsdef
  have hsc : s ^ 2 + c ^ 2 = 1 := sin_sq_add_cos_sq _
  have hc1 : |c| ≤ 1 := abs_cos_le_one _
  set k := d * π / 19980 with hkdef
  have hk0 : 0 ≤ k := by rw [hkdef]; positivity
  have hku : k ≤ 2.3587e-4 := by rw [hkdef]; nlinarith
  rw [havA]
  have e1 : radians (51.6564 + d / 111.0 * c - 51.6564) / 2 = k / 2 * c := by
    rw [radians, hkdef]; ring
  have e2 : radians (5.7083 + d / (111.0 * γ) * s - 5.7083) / 2 = k / 2 * s / γ := by
    rw [radians, hkdef]
    field_simp
    ring
  have e3 : radians (51.6564 + d / 111.0 * c) = radians 51.6564 + k * c := by
    rw [radians, radians, hkdef]; ring
  rw [e1, e2, e3, ← hγdef]
  have t1 : sin (k / 2 * c) ^ 2 ≤ (k / 2 * c) ^ 2 := Real.sin_sq_le_sq
  have t3 : sin (k / 2 * s / γ) ^ 2 ≤ (k / 2 * s / γ) ^ 2 := Real.sin_sq_le_sq
  have t2 : cos (radians 51.6564 + k * c) ≤ γ + k := by
    have habs := abs_cos_sub_cos_le (radians 51.6564 + k * c) (radians 51.6564)
    have h4 : radians 51.6564 + k * c - radians 51.6564 = k * c := by ring
    rw [h4] at habs
    have h5 : |k * c| ≤ k := by
      rw [abs_mul, abs_of_nonneg hk0]
      nlinarith [abs_nonneg c]
    have := (abs_le.1 habs).2
    linarith
  have hterm2 : γ * cos (radians 51.6564 + k * c) * sin (k / 2 * s / γ) ^ 2 ≤
      (γ + k) / γ * ((k / 2) ^ 2 * s ^ 2) := by
    have step1 : γ * cos (radians 51.6564 + k * c) ≤ γ * (γ + k) :=
      mul_le_mul_of_nonneg_left t2 (le_of_lt hγ0)
    have step2 : γ * cos (radians 51.6564 + k * c) * sin (k / 2 * s / γ) ^ 2 ≤
        γ * (γ + k) * sin (k / 2 * s / γ) ^ 2 :=
      mul_le_mul_of_nonneg_right step1 (sq_nonneg _)
    have step3 : γ * (γ + k) * sin (k / 2 * s / γ) ^ 2 ≤
        γ * (γ + k) * (k / 2 * s / γ) ^ 2 :=
      mul_le_mul_of_nonneg_left t3
        (mul_nonneg (show (0:ℝ) ≤ γ by linarith) (show (0:ℝ) ≤ γ + k by linarith))
    have step4 : γ * (γ + k) * (k / 2 * s / γ) ^ 2 = (γ + k) / γ * ((k / 2) ^ 2 * s ^ 2) := by
      field_simp
      ring
    linarith
  have hfrac : (γ + k) / γ ≤ 1.000422 := by
    rw [div_le_iff hγ0]
    nlinarith
  have hsum : sin (k / 2 * c) ^ 2 + γ * cos (radians 51.6564 + k * c) *
      sin (k / 2 * s / γ) ^ 2 ≤ 1.000422 * (k / 2) ^ 2 := by
    have hb1 : (k / 2 * c) ^ 2 = (k / 2) ^ 2 * c ^ 2 := by ring
    have hb2 : (γ + k) / γ * ((k / 2) ^ 2 * s ^ 2) ≤ 1.000422 * ((k / 2) ^ 2 * s ^ 2) :=
      mul_le_mul_of_nonneg_right hfrac (by positivity)
    nlinarith [sq_nonneg (k / 2), sq_nonneg s, sq_nonneg c]
  have hnum : (1.000422 : ℝ) * (k / 2) ^ 2 ≤ ((1.7 / 12742) * (1 - 1e-6)) ^ 2 := by
    have hk2 : (k / 2) ^ 2 ≤ (2.3587e-4 / 2) ^ 2 := by nlinarith
    nlinarith
  have hthr : ((1.7 / 12742 : ℝ) * (1 - 1e-6)) ^ 2 ≤ sin (1.7 / 12742) ^ 2 := by
    have h1 := sin_thr_lb
    have h2 : (0:ℝ) ≤ (1.7 / 12742) * (1 - 1e-6) := by norm_num
    nlinarith
  linarith

/-- Lower bound on the haversine `a` for far candidates (`2 ≤ d ≤ 4` km):
large enough to clear the 1700 m exclusion distance. -/
theorem volkelA_lower (d θ : ℝ) (h2 : 2 ≤ d) (h4 : d ≤ 4) :
    sin (1.7 / 12742) ^ 2 <
      havA 51.6564 5.7083 (51.6564 + (d / 111.0) * cos (radians θ))
        (5.7083 + (d / (111.0 * cos (radians 51.6564))) * sin (radians θ)) := by
  have hπl : (3.141592 : ℝ) < π := Real.pi_gt_d6
  have hπu : π < 3.141593 := Real.pi_lt_d6
  have hγ : (0.559 : ℝ) ≤ cos (radians 51.6564) := volkel_gamma_lb
  have hγ1 : cos (radians 51.6564) ≤ 1 := cos_le_one _
  have hγ0 : (0:ℝ) < cos (radians 51.6564) := by linarith
  set γ := cos (radians 51.6564) with hγdef
  set c := cos (radians θ) with hcdef
  set s := sin (radians θ) with hsdef
  have hsc : s ^ 2 + c ^ 2 = 1 := sin_sq_add_cos_sq _
  have hc1 : |c| ≤ 1 := abs_cos_le_one _
  have hs1 : |s| ≤ 1 := abs_sin_le_one _
  set k := d * π / 19980 with hkdef
  have hk0 : 0 ≤ k := by rw [hkdef]; positivity
  have hkl : 3.1447e-4 ≤ k := by rw [hkdef]; nlinarith
  have hku : k ≤ 6.2910e-4 := by rw [hkdef]; nlinarith
  rw [havA]
  have e1 : radians (51.6564 + d / 111.0 * c - 51.6564) / 2 = k / 2 * c := by
    rw [radians, hkdef]; ring
  have e2 : radians (5.7083 + d / (111.0 * γ) * s - 5.7083) / 2 = k / 2 * s / γ := by
    rw [radians, hkdef]
    field_simp
    ring
  have e3 : radians (51.6564 + d / 111.0 * c) = radians 51.6564 + k * c := by
    rw [radians, radians, hkdef]; ring
  rw [e1, e2, e3, ← hγdef]
  have habsc : |k / 2 * c| ≤ 1e-3 := by
    rw [abs_mul, abs_of_nonneg (by linarith : (0:ℝ) ≤ k / 2)]
    nlinarith [abs_nonneg c]
  have habss : |k / 2 * s / γ| ≤ 1e-3 := by
    rw [abs_div, abs_mul, abs_of_nonneg (by linarith : (0:ℝ) ≤ k / 2),
      abs_of_pos hγ0]
    rw [div_le_iff hγ0]
    nlinarith [abs_nonneg s]
  have t1 : (k / 2 * c) ^ 2 * (1 - 1e-5) ≤ sin (k / 2 * c) ^ 2 := sin_sq_ge_small habsc
  have t3 : (k / 2 * s / γ) ^ 2 * (1 - 1e-5) ≤ sin (k / 2 * s / γ) ^ 2 :=
    sin_sq_ge_small habss
  have t2 : γ - k ≤ cos (radians 51.6564 + k * c) := by
    have habs := abs_cos_sub_cos_le (radians 51.6564 + k * c) (radians 51.6564)
    have h5 : radians 51.6564 + k * c - radians 51.6564 = k * c := by ring
    rw [h5] at habs
    have h6 : |k * c| ≤ k := by
      rw [abs_mul, abs_of_nonneg hk0]
      nlinarith [abs_nonneg c]
    have := (abs_le.1 habs).1
    linarith
  have hγk0 : (0:ℝ) ≤ γ - k := by linarith
  have hterm2 : (γ - k) / γ * ((k / 2) ^ 2 * s ^ 2) * (1 - 1e-5) ≤
      γ * cos (radians 51.6564 + k * c) * sin (k / 2 * s / γ) ^ 2 := by
    have step1 : γ * (γ - k) ≤ γ * cos (radians 51.6564 + k * c) :=
      mul_le_mul_of_nonneg_left t2 (le_of_lt hγ0)
    have step2 : γ * (γ - k) * ((k / 2 * s / γ) ^ 2 * (1 - 1e-5)) ≤
        γ * (γ - k) * sin (k / 2 * s / γ) ^ 2 :=
      mul_le_mul_of_nonneg_left t3
        (mul_nonneg (show (0:ℝ) ≤ γ by linarith) (show (0:ℝ) ≤ γ - k by linarith))
    have step3 : γ * (γ - k) * sin (k / 2 * s / γ) ^ 2 ≤
        γ * cos (radians 51.6564 + k * c) * sin (k / 2 * s / γ) ^ 2 :=
      mul_le_mul_of_nonneg_right step1 (sq_nonneg _)
    have step4 : γ * (γ - k) * ((k / 2 * s / γ) ^ 2 * (1 - 1e-5)) =
        (γ - k) / γ * ((k / 2) ^ 2 * s ^ 2) * (1 - 1e-5) := by
      field_simp
      ring
    linarith
  have hfrac : 0.99887 ≤ (γ - k) / γ := by
    rw [le_div_iff hγ0]
    nlinarith
  have hsum : 0.99886 * (k / 2) ^ 2 ≤
      sin (k / 2 * c) ^ 2 + γ * cos (radians 51.6564 + k * c) *
        sin (k / 2 * s / γ) ^ 2 := by
    have hb2 : 0.99887 * ((k / 2) ^ 2 * s ^ 2) * (1 - 1e-5) ≤
        (γ - k) / γ * ((k / 2) ^ 2 * s ^ 2) * (1 - 1e-5) := by
      have := mul_le_mul_of_nonneg_right hfrac
        (show (0:ℝ) ≤ (k / 2) ^ 2 * s ^ 2 by positivity)
      nlinarith
    nlinarith [sq_nonneg (k / 2), sq_nonneg s, sq_nonneg c, sq_nonneg (k / 2 * c)]
  have hnum : ((1.7 / 12742 : ℝ)) ^ 2 < 0.99886 * (k / 2) ^ 2 := by
    have hk2 : (3.1447e-4 / 2) ^ 2 ≤ (k / 2) ^ 2 := by nlinarith
    nlinarith
  have hthr : sin (1.7 / 12742) ^ 2 ≤ ((1.7 / 12742 : ℝ)) ^ 2 := by
    have h1 := sin_thr_ub
    have h2 := sin_thr_nonneg
    nlinarith
  linarith

/-- Every near-ring candidate (`d ≤ 1.5` km, any bearing) lies inside the
Volkel boundary (1500 m radius + 200 m buffer = 1.7 km). -/
theorem volkel_candidate_inside (d θ : ℝ) (h0 : 0 ≤ d) (h15 : d ≤ 1.5) :
    isInsideBoundary volkelBoundary (candidateAt 51.6564 5.7083 d θ).lat
      (candidateAt 51.6564 5.7083 d θ).lon := by
  have hD2 : (1.7 : ℝ) / 12742 ≤ π / 2 := by nlinarith [Real.pi_gt_d6]
  simp only [isInsideBoundary, volkelBoundary, candidateAt]
  have h := (haversineKm_le_iff 51.6564 5.7083
      (51.6564 + d / 111.0 * cos (radians θ))
      (5.7083 + d / (111.0 * cos (radians 51.6564)) * sin (radians θ))
      1.7 (by norm_num) hD2).2 (volkelA_upper d θ h0 h15)
  linarith

/-- Every far-ring candidate (`2 ≤ d ≤ 4` km, any bearing) is strictly more
than 1.7 km from the Volkel centre. -/
theorem volkel_candidate_far (d θ : ℝ) (h2 : 2 ≤ d) (h4 : d ≤ 4) :
    1.7 < haversineKm 51.6564 5.7083 (candidateAt 51.6564 5.7083 d θ).lat
      (candidateAt 51.6564 5.7083 d θ).lon := by
  have hD2 : (1.7 : ℝ) / 12742 ≤ π / 2 := by nlinarith [Real.pi_gt_d6]
  simp only [candidateAt]
  by_contra hcon
  push_neg at hcon
  have h := (haversineKm_le_iff 51.6564 5.7083
      (51.6564 + d / 111.0 * cos (radians θ))
      (5.7083 + d / (111.0 * cos (radians 51.6564)) * sin (radians θ))
      1.7 (by norm_num) hD2).1 hcon
  exact absurd h (not_le.2 (volkelA_lower d θ h2 h4))

/-- Every far-ring candidate is outside the Volkel boundary. -/
theorem volkel_candidate_outside (d θ : ℝ) (h2 : 2 ≤ d) (h4 : d ≤ 4) :
    ¬ isInsideBoundary volkelBoundary (candidateAt 51.6564 5.7083 d θ).lat
      (candidateAt 51.6564 5.7083 d θ).lon := by
  have hfar := volkel_candidate_far d θ h2 h4
  simp only [candidateAt] at hfar
  simp only [isInsideBoundary, volkelBoundary, candidateAt]
  intro hin
  linarith

/-- On a near ring the hard-constraint filter discards everything: the keep
filter empties and the discard filter keeps the whole ring. -/
theorem volkelRing_near (d : ℝ) (h0 : 0 ≤ d) (h15 : d ≤ 1.5) :
    (candidateRing 51.6564 5.7083 d).filter
        (fun c => decide (keepCandidate (some volkelBoundary) c)) = [] ∧
      (candidateRing 51.6564 5.7083 d).filter
        (fun c => decide (¬ keepCandidate (some volkelBoundary) c)) =
        candidateRing 51.6564 5.7083 d := by
  constructor
  · rw [List.filter_eq_nil_iff]
    intro c hc
    rw [candidateRing, List.mem_map] at hc
    obtain ⟨θ, -, rfl⟩ := hc
    simp only [keepCandidate, decide_eq_true_eq]
    exact not_not_intro (volkel_candidate_inside d θ h0 h15)
  · rw [List.filter_eq_self]
    intro c hc
    rw [candidateRing, List.mem_map] at hc
    obtain ⟨θ, -, rfl⟩ := hc
    simp only [keepCandidate, decide_eq_true_eq]
    exact not_not_intro (volkel_candidate_inside d θ h0 h15)

/-- On a far ring the hard-constraint filter keeps everything. -/
theorem volkelRing_far (d : ℝ) (h2 : 2 ≤ d) (h4 : d ≤ 4) :
    (candidateRing 51.6564 5.7083 d).filter
        (fun c => decide (keepCandidate (some volkelBoundary) c)) =
        candidateRing 51.6564 5.7083 d ∧
      (candidateRing 51.6564 5.7083 d).filter
        (fun c => decide (¬ keepCandidate (some volkelBoundary) c)) = [] := by
  constructor
  · rw [List.filter_eq_self]
    intro c hc
    rw [candidateRing, List.mem_map] at hc
    obtain ⟨θ, -, rfl⟩ := hc
    simp only [keepCandidate, decide_eq_true_eq]
    exact volkel_candidate_outside d θ h2 h4
  · rw [List.filter_eq_nil_iff]
    intro c hc
    rw [candidateRing, List.mem_map] at hc
    obtain ⟨θ, -, rfl⟩ := hc
    simp only [keepCandidate, decide_eq_true_eq]
    exact not_not_intro (volkel_candidate_outside d θ h2 h4)

theorem volkelRing_length (d : ℝ) : (candidateRing 51.6564 5.7083 d).length = 8 := by
  simp [candidateRing, ANGLES_DEG]

/-- The Volkel candidate grid, ring by ring. -/
theorem volkelGrid_eq :
    generateCandidateGrid 51.6564 5.7083 =
      candidateRing 51.6564 5.7083 0.2 ++ (candidateRing 51.6564 5.7083 0.5 ++
      (candidateRing 51.6564 5.7083 1.0 ++ (candidateRing 51.6564 5.7083 1.5 ++
      (candidateRing 51.6564 5.7083 2.0 ++ (candidateRing 51.6564 5.7083 2.5 ++
      (candidateRing 51.6564 5.7083 3.0 ++ (candidateRing 51.6564 5.7083 3.5 ++
      candidateRing 51.6564 5.7083 4.0))))))) := by
  simp only [generateCandidateGrid, DISTANCES_KM, List.flatMap_cons, List.flatMap_nil,
    List.append_nil]

/-- 32 candidates (the four rings within 1.5 km) are discarded. -/
theorem volkel_filtered_length :
    (filteredCandidates (some volkelBoundary) 51.6564 5.7083).length = 32 := by
  rw [filteredCandidates, volkelGrid_eq]
  simp only [List.filter_append]
  rw [(volkelRing_near 0.2 (by norm_num) (by norm_num)).2,
      (volkelRing_near 0.5 (by norm_num) (by norm_num)).2,
      (volkelRing_near 1.0 (by norm_num) (by norm_num)).2,
      (volkelRing_near 1.5 (by norm_num) (by norm_num)).2,
      (volkelRing_far 2.0 (by norm_num) (by norm_num)).2,
      (volkelRing_far 2.5 (by norm_num) (by norm_num)).2,
      (volkelRing_far 3.0 (by norm_num) (by norm_num)).2,
      (volkelRing_far 3.5 (by norm_num) (by norm_num)).2,
      (volkelRing_far 4.0 (by norm_num) (by norm_num)).2]
  simp [List.length_append, volkelRing_length]

/-- 40 candidates (the five rings from 2 km out) survive the filter. -/
theorem volkel_surviving_length :
    (survivingCandidates (some volkelBoundary) 51.6564 5.7083).length = 40 := by
  rw [survivingCandidates, volkelGrid_eq]
  simp only [List.filter_append]
  rw [(volkelRing_near 0.2 (by norm_num) (by norm_num)).1,
      (volkelRing_near 0.5 (by norm_num) (by norm_num)).1,
      (volkelRing_near 1.0 (by norm_num) (by norm_num)).1,
      (volkelRing_near 1.5 (by norm_num) (by norm_num)).1,
      (volkelRing_far 2.0 (by norm_num) (by norm_num)).1,
      (volkelRing_far 2.5 (by norm_num) (by norm_num)).1,
      (volkelRing_far 3.0 (by norm_num) (by norm_num)).1,
      (volkelRing_far 3.5 (by norm_num) (by norm_num)).1,
      (volkelRing_far 4.0 (by norm_num) (by norm_num)).1]
  simp [List.length_append, volkelRing_length]

/-- **C2** Volkel concrete scenario: for a `predict_operator_locations` call
targeting the registered Volkel Air Base centre `(51.6564, 5.7083)`
(circular radius 1500 m + 200 m safety buffer), the boundary lookup resolves
the Volkel site, the candidate grid has 72 entries, exactly 32 of them
(all 8 bearings of the four ladder distances 200/500/1000/1500 m) are
filtered as inside the boundary, 40 candidates survive and are scored,
exactly 3 hotspots are returned, and every returned hotspot has
`distance_to_target_m` strictly greater than 1700 m. -/
theorem volkel_scenario (cache : OsmCache) (incident_id : ℤ)
    (drone_type approach_vector exit_vector : Option String) (time_of_day : String)
    (evidence_items : Option (List EvidenceItem)) :
    getSiteBoundaryByLocation 51.6564 5.7083 5.0 = some volkelBoundary ∧
    (generateCandidateGrid 51.6564 5.7083).length = 72 ∧
    (filteredCandidates (getSiteBoundaryByLocation 51.6564 5.7083 5.0)
      51.6564 5.7083).length = 32 ∧
    (survivingCandidates (getSiteBoundaryByLocation 51.6564 5.7083 5.0)
      51.6564 5.7083).length = 40 ∧
    List.Forall (fun d => List.Forall
        (fun c => isInsideBoundary volkelBoundary c.lat c.lon)
        (candidateRing 51.6564 5.7083 d)) [0.2, 0.5, 1.0, 1.5] ∧
    List.Forall (fun d => List.Forall
        (fun c => ¬ isInsideBoundary volkelBoundary c.lat c.lon)
        (candidateRing 51.6564 5.7083 d)) [2.0, 2.5, 3.0, 3.5, 4.0] ∧
    ((predictOperatorLocations defaultEngineV2 cache incident_id 51.6564 5.7083
        drone_type approach_vector exit_vector time_of_day
        evidence_items).1.predicted_hotspots).length = 3 ∧
    List.Forall (fun h => 1700 < h.distance_to_target_m)
      ((predictOperatorLocations defaultEngineV2 cache incident_id 51.6564 5.7083
        drone_type approach_vector exit_vector time_of_day
        evidence_items).1.predicted_hotspots) := by
  refine ⟨getSiteBoundaryByLocation_volkel, ?_, ?_, ?_, ?_, ?_, ?_, ?_⟩
  · rw [volkelGrid_eq]
    simp [List.length_append, volkelRing_length]
  · rw [getSiteBoundaryByLocation_volkel]
    exact volkel_filtered_length
  · rw [getSiteBoundaryByLocation_volkel]
    exact volkel_surviving_length
  · rw [List.forall_iff_forall_mem]
    intro d hd
    fin_cases hd <;>
      (rw [List.forall_iff_forall_mem]
       intro c hc
       rw [candidateRing, List.mem_map] at hc
       obtain ⟨θ, -, rfl⟩ := hc
       exact volkel_candidate_inside _ θ (by norm_num) (by norm_num))
  · rw [List.forall_iff_forall_mem]
    intro d hd
    fin_cases hd <;>
      (rw [List.forall_iff_forall_mem]
       intro c hc
       rw [candidateRing, List.mem_map] at hc
       obtain ⟨θ, -, rfl⟩ := hc
       exact volkel_candidate_outside _ θ (by norm_num) (by norm_num))
  · simp only [predictOperatorLocations, buildAnalysis, sortHotspotsDesc,
      engineScoredHotspots]
    rw [assignRanks_length, List.length_take, List.length_mergeSort, List.length_map,
      getSiteBoundaryByLocation_volkel, volkel_surviving_length]
    rfl
  · rw [List.forall_iff_forall_mem]
    intro h hmem
    simp only [predictOperatorLocations] at hmem
    obtain ⟨c, hc, j, hj⟩ := mem_predicted_hotspots hmem
    obtain ⟨-, hkeep⟩ := mem_survivingCandidates hc
    rw [getSiteBoundaryByLocation_volkel] at hkeep
    simp only [keepCandidate, isInsideBoundary, volkelBoundary] at hkeep
    push_neg at hkeep
    have hd : h.distance_to_target_m =
        haversineKm c.lat c.lon 51.6564 5.7083 * 1000 := by
      rw [hj]; rfl
    rw [hd, haversineKm_symm]
    linarith

end CUAS
